import Mathlib

/-!
# ipa-distributer: upload gatekeeper

Shallow embedding of `main.go` and `mobileprovision.go`.

* Go `error` values built with `fmt.Errorf` are kept as the format string together with
  the rendered `%s` operands; `GoError.Error` renders the message.
* A run-time panic is an outcome of its own (`Outcome.panic`), distinct from a returned error.
* The libraries the program calls (archive/zip, pkcs7, go-plist, fmt operand printing,
  path/filepath) are fields of `Lib`; every theorem quantifies over them.
* The calls `zipCheck` makes on archive members are recorded in a call log, so that
  "is never applied" and "is not examined" are statements about that log.
* The file system is a map from path to content; the outcomes of the system calls that
  can fail for reasons outside the program are fields of `Env`. One request is run at a
  time, and `os.Remove` of the temporary file succeeds whenever the file is there.
* `crypto/sha1` is written out after FIPS 180-4 and checked on the standard test vectors.
* `debug` output (`fmt.Println`, `pp.Println`) only writes to standard output and is left out.
-/

namespace IpaDistributer

/-! ## Data model -/

abbrev Byte := Fin 256

abbrev Bytes := List Byte

/-- The `%s` verbs of a format are replaced, left to right, by the operands. -/
def sprintfAux : List Char → List String → List Char
  | '%' :: 's' :: cs, a :: as => a.data ++ sprintfAux cs as
  | '%' :: 's' :: cs, [] => "%!s(MISSING)".data ++ sprintfAux cs []
  | c :: cs, as => c :: sprintfAux cs as
  | [], _ => []

/-- Rendering of `fmt.Sprintf` for formats whose only verb is `%s`, operands already
rendered as text. -/
def Sprintf (format : String) (args : List String) : String :=
  ⟨sprintfAux format.data args⟩

/-- A Go `error` made by `fmt.Errorf(format, args...)`. -/
structure GoError where
  format : String
  args : List String
  deriving DecidableEq, Repr

def Errorf (format : String) (args : List String) : GoError :=
  ⟨format, args⟩

/-- The method `Error()` of the error value: the rendered message. -/
def GoError.Error (e : GoError) : String :=
  Sprintf e.format e.args

/-- How a Go function call ends: it returns a value, or it panics. -/
inductive Outcome (α : Type) where
  | ret (a : α)
  | panic (msg : String)
  deriving DecidableEq, Repr

deriving instance DecidableEq for Except

/-- The dynamic values go-plist decodes into `interface{}`. -/
inductive Value where
  | str (s : String)
  | uint (n : Nat)
  | int (i : Int)
  | real (bits : Nat)
  | bool (b : Bool)
  | data (b : Bytes)
  | date (unixNano : Int)
  | array (xs : List Value)
  | dict (kvs : List (String × Value))

/-- A `map[string]interface{}`: the association list of its entries. -/
abbrev GoMap := List (String × Value)

/-- Map index expression `m[key]`: the value, or the nil interface when the key is absent. -/
def GoMap.index (m : GoMap) (key : String) : Option Value :=
  List.lookup key m

/-- Name of the dynamic type of an interface value, as the run time prints it. -/
def goTypeName : Option Value → String
  | none => "nil"
  | some (.str _) => "string"
  | some (.uint _) => "uint64"
  | some (.int _) => "int64"
  | some (.real _) => "float64"
  | some (.bool _) => "bool"
  | some (.data _) => "[]uint8"
  | some (.date _) => "time.Time"
  | some (.array _) => "[]interface \x7b\x7d"
  | some (.dict _) => "map[string]interface \x7b\x7d"

/-- Message of the run-time panic raised by the failed type assertion
`v.(map[string]interface{})`. -/
def typeAssertPanic (v : Option Value) : String :=
  "interface conversion: interface \x7b\x7d is " ++ goTypeName v ++
    ", not map[string]interface \x7b\x7d"

/-- Go comparison `x == s` of an interface value with a string: true exactly when the
dynamic type is string and the strings are equal. -/
def interfaceEqString : Option Value → String → Bool
  | some (.str a), s => a == s
  | _, _ => false

/-- A parsed PKCS#7 message: the payload, and the certificates and signer infos it
carries (kept as their encodings). -/
structure PKCS7 where
  Content : Bytes
  Certificates : List Bytes
  Signers : List Bytes
  deriving DecidableEq, Repr

/-- A member of an opened archive (`*zip.File`): its name, and what `Open` followed by
reading the stream to its end gives. -/
structure ZipFile where
  Name : String
  Open : Except String (Except String Bytes)
  deriving DecidableEq, Repr

/-- The package-level variables set from the command line. -/
structure Config where
  appIdentifier : String
  dataDir : String
  debug : Bool
  deriving DecidableEq, Repr

/-- The library functions the program calls. -/
structure Lib where
  /-- Result of `zip.OpenReader` on a file with this content. -/
  zipNewReader : Bytes → Except String (List ZipFile)
  /-- Result of `pkcs7.Parse`. -/
  pkcs7Parse : Bytes → Except String PKCS7
  /-- Result of `(*PKCS7).Verify`: `none` is a nil error. -/
  pkcs7Verify : PKCS7 → Option String
  /-- Result of `plist.Unmarshal` into a `map[string]interface{}`. -/
  plistUnmarshal : Bytes → Except String GoMap
  /-- Text `fmt` prints under `%s` for an operand that is not a string. -/
  fmtOperand : Value → String
  /-- Result of `filepath.Join` of two elements. -/
  filepathJoin : String → String → String

/-- Text `fmt` prints under `%s` for an interface operand. -/
def fmtS (lib : Lib) : Option Value → String
  | none => "%!s(<nil>)"
  | some (.str s) => s
  | some v => lib.fmtOperand v

/-- The calls made on archive members, in the order they are made. -/
inductive Call where
  | fileOpen (name : String)
  | readAll (name : String)
  | pkcs7Parse (b : Bytes)
  | pkcs7Verify (msg : PKCS7)
  | plistUnmarshal (b : Bytes)
  deriving DecidableEq, Repr

/-- The file system: the content stored under each path, if any. -/
abbrev FS := String → Option Bytes

def FS.write (fs : FS) (p : String) (b : Bytes) : FS :=
  fun q => if q = p then some b else fs q

def FS.remove (fs : FS) (p : String) : FS :=
  fun q => if q = p then none else fs q

/-! ## zipCheck -/

/-- Go `strings.HasSuffix`. -/
def HasSuffix (s suffix : String) : Bool :=
  suffix.data.isSuffixOf s.data

/-- The test of the loop of `zipCheck` on a member name (main.go line 109). -/
def isManifest (f : ZipFile) : Bool :=
  HasSuffix f.Name "embedded.mobileprovision"

/-- Go function `loadPKCS7Content` (main.go); `r` is what `ioutil.ReadAll` gives on the
member's stream. -/
def loadPKCS7Content (lib : Lib) (r : Except String Bytes) : List Call × Except GoError Bytes :=
  match r with
  | .error e => ([], .error (Errorf "failed to read pkcs7 data: %s" [e]))
  | .ok b =>
    match lib.pkcs7Parse b with
    | .error e => ([.pkcs7Parse b], .error (Errorf "failed to parse pkcs7: %s" [e]))
    | .ok msg =>
      match lib.pkcs7Verify msg with
      | some e => ([.pkcs7Parse b, .pkcs7Verify msg], .error (Errorf "failed to verify: %s" [e]))
      | none => ([.pkcs7Parse b, .pkcs7Verify msg], .ok msg.Content)

/-- Go function `parseProvisioningProfile` (mobileprovision.go). -/
def parseProvisioningProfile (lib : Lib) (b : Bytes) : List Call × Except GoError GoMap :=
  match lib.plistUnmarshal b with
  | .error e => ([.plistUnmarshal b], .error (Errorf "plist unmarshal error: %s" [e]))
  | .ok data => ([.plistUnmarshal b], .ok data)

/-- The statements of `zipCheck` after the profile is parsed (main.go lines 127-130):
the type assertion on `profile["Entitlements"]`, the index by `application-identifier`
and the comparison with `appIdentifier`. `none` is "go on with the next member". -/
def checkAppID (cfg : Config) (lib : Lib) (profile : GoMap) : Outcome (Option GoError) :=
  match profile.index "Entitlements" with
  | some (.dict ent) =>
    let appID := GoMap.index ent "application-identifier"
    if !interfaceEqString appID cfg.appIdentifier then
      .ret (some (Errorf "invalid appid: `%s` but `%s` is expected"
        [fmtS lib appID, cfg.appIdentifier]))
    else .ret none
  | v => .panic (typeAssertPanic v)

/-- The body of the loop of `zipCheck` for a member whose name has the suffix (main.go
lines 112-130). `ret none` is "go on with the next member". -/
def zipCheckMember (cfg : Config) (lib : Lib) (f : ZipFile) :
    List Call × Outcome (Option GoError) :=
  match f.Open with
  | .error e =>
    ([.fileOpen f.Name], .ret (some (Errorf "open file in zip: %s %s" [f.Name, e])))
  | .ok rc =>
    match loadPKCS7Content lib rc with
    | (t, .error e) =>
      ([.fileOpen f.Name, .readAll f.Name] ++ t,
        .ret (some (Errorf "smime error: %s %s" [f.Name, e.Error])))
    | (t, .ok xmldata) =>
      match parseProvisioningProfile lib xmldata with
      | (u, .error e) =>
        ([.fileOpen f.Name, .readAll f.Name] ++ t ++ u,
          .ret (some (Errorf "failed to parse mobileprovision xml: %s" [e.Error])))
      | (u, .ok profile) =>
        ([.fileOpen f.Name, .readAll f.Name] ++ t ++ u, checkAppID cfg lib profile)

/-- The loop of `zipCheck` over `r.File` (main.go lines 108-132). -/
def zipCheckLoop (cfg : Config) (lib : Lib) :
    List ZipFile → List Call × Outcome (Option GoError)
  | [] => ([], .ret none)
  | f :: rest =>
    if !isManifest f then zipCheckLoop cfg lib rest
    else
      match zipCheckMember cfg lib f with
      | (t, .ret none) => (t ++ (zipCheckLoop cfg lib rest).1, (zipCheckLoop cfg lib rest).2)
      | (t, o) => (t, o)

/-- Result of `zip.OpenReader(path)`: the file is opened, then read as an archive. -/
def zipOpenReader (lib : Lib) (fs : FS) (path : String) : Except String (List ZipFile) :=
  match fs path with
  | none => .error ("open " ++ path ++ ": no such file or directory")
  | some content => lib.zipNewReader content

/-- Go function `zipCheck` (main.go): the call log and how the call ends; `ret none` is a
nil error. -/
def zipCheck (cfg : Config) (lib : Lib) (fs : FS) (path : String) :
    List Call × Outcome (Option GoError) :=
  match zipOpenReader lib fs path with
  | .error e => ([], .ret (some (Errorf "open zip: %s" [e])))
  | .ok files => zipCheckLoop cfg lib files

/-! ## SHA-1 and the hexadecimal file name -/

def toByte (n : Nat) : Byte :=
  ⟨n % 256, Nat.mod_lt _ (by decide)⟩

/-- Rotation of a 32-bit word to the left. -/
def rotl32 (x n : Nat) : Nat :=
  ((x <<< n) ||| (x >>> (32 - n))) % 4294967296

/-- The 32-bit word four bytes encode, most significant byte first. -/
def beWord : List Byte → Nat
  | [a, b, c, d] => ((a.val * 256 + b.val) * 256 + c.val) * 256 + d.val
  | _ => 0

/-- The four bytes of a 32-bit word, most significant first. -/
def wordBytes (w : Nat) : Bytes :=
  [toByte (w / 16777216), toByte (w / 65536), toByte (w / 256), toByte w]

/-- The message followed by the SHA-1 padding: a byte 0x80, zero bytes up to 56 modulo 64,
and the bit length as a 64-bit number. -/
def sha1Pad (msg : Bytes) : Bytes :=
  let t := msg.length % 64
  let n := if t < 56 then 56 - t else 120 - t
  let bits := msg.length * 8
  msg ++ toByte 128 :: List.replicate (n - 1) (toByte 0) ++
    (wordBytes (bits / 4294967296 % 4294967296) ++ wordBytes (bits % 4294967296))

/-- The first `n` pieces of `k` bytes of a list. -/
def chunksOf (k : Nat) : Nat → Bytes → List Bytes
  | 0, _ => []
  | n + 1, l => l.take k :: chunksOf k n (l.drop k)

/-- Extension of the message schedule by `n` words; the schedule is kept newest first. -/
def sha1Expand : Nat → List Nat → List Nat
  | 0, w => w
  | n + 1, w =>
    sha1Expand n (rotl32 (w.getD 2 0 ^^^ w.getD 7 0 ^^^ w.getD 13 0 ^^^ w.getD 15 0) 1 :: w)

/-- The 80 words of the message schedule of a 64-byte block. -/
def sha1Schedule (block : Bytes) : List Nat :=
  (sha1Expand 64 ((chunksOf 4 16 block).map beWord).reverse).reverse

/-- The five working words of SHA-1. -/
structure Sha1State where
  a : Nat
  b : Nat
  c : Nat
  d : Nat
  e : Nat
  deriving DecidableEq, Repr

def sha1Round (i : Nat) (s : Sha1State) (w : Nat) : Sha1State :=
  let f :=
    if i < 20 then (s.b &&& s.c) ||| ((s.b ^^^ 4294967295) &&& s.d)
    else if i < 40 then s.b ^^^ s.c ^^^ s.d
    else if i < 60 then ((s.b ||| s.c) &&& s.d) ||| (s.b &&& s.c)
    else s.b ^^^ s.c ^^^ s.d
  let k :=
    if i < 20 then 0x5A827999 else if i < 40 then 0x6ED9EBA1
    else if i < 60 then 0x8F1BBCDC else 0xCA62C1D6
  ⟨(rotl32 s.a 5 + f + s.e + w + k) % 4294967296, s.a, rotl32 s.b 30, s.c, s.d⟩

def sha1Rounds : Nat → Sha1State → List Nat → Sha1State
  | _, s, [] => s
  | i, s, w :: ws => sha1Rounds (i + 1) (sha1Round i s w) ws

def sha1Block (h : Sha1State) (block : Bytes) : Sha1State :=
  let s := sha1Rounds 0 h (sha1Schedule block)
  ⟨(h.a + s.a) % 4294967296, (h.b + s.b) % 4294967296, (h.c + s.c) % 4294967296,
    (h.d + s.d) % 4294967296, (h.e + s.e) % 4294967296⟩

def sha1Init : Sha1State :=
  ⟨0x67452301, 0xEFCDAB89, 0x98BADCFE, 0x10325476, 0xC3D2E1F0⟩

/-- The 20-byte digest `h.Sum(nil)` of a `sha1.New()` hash to which `msg` was written. -/
def sha1Sum (msg : Bytes) : Bytes :=
  let p := sha1Pad msg
  let h := (chunksOf 64 (p.length / 64) p).foldl sha1Block sha1Init
  wordBytes h.a ++ wordBytes h.b ++ wordBytes h.c ++ wordBytes h.d ++ wordBytes h.e

def hexDigit (n : Nat) : Char :=
  if n < 10 then Char.ofNat (48 + n) else Char.ofNat (87 + n)

/-- Rendering `fmt.Sprintf("%x", b)` of a byte slice: two lower-case digits per byte. -/
def hexString (b : Bytes) : String :=
  ⟨b.flatMap fun x => [hexDigit (x.val / 16), hexDigit (x.val % 16)]⟩

/-- A character of 0-9 or a-f. -/
def isLowerHex (c : Char) : Bool :=
  (decide ('0' ≤ c) && decide (c ≤ '9')) || (decide ('a' ≤ c) && decide (c ≤ 'f'))

/-! ## uploadAPI -/

/-- The request body as the reader delivers it: the successive non-final reads, then
end of file (`err = none`) or a read error. -/
structure Body where
  chunks : List Bytes
  err : Option String

/-- Outcomes of the system calls that do not depend on the program. -/
structure Env where
  /-- Set when `ioutil.TempFile` fails for a reason other than a name in use. -/
  tmpErr : Option String
  /-- The names `ioutil.TempFile("", "uploading.*")` tries, in order. -/
  tmpNames : List String
  /-- The write to the temporary file numbered `k` fails after this many bytes. -/
  writeFault : Nat → Option (Nat × String)
  /-- Set when `os.Stat` fails with an error other than "does not exist". -/
  statErr : Option String
  /-- Set when `os.Rename` fails. -/
  renameErr : Option String

/-- Go type `apiError` (main.go). -/
structure apiError where
  Error : GoError
  Status : Nat
  deriving DecidableEq, Repr

def StatusOK : Nat := 200

def StatusBadRequest : Nat := 400

def StatusNotFound : Nat := 404

def StatusInternalServerError : Nat := 500

/-- Go `http.StatusText`, for the codes this program sends. -/
def StatusText (code : Nat) : String :=
  if code = 200 then "OK"
  else if code = 400 then "Bad Request"
  else if code = 404 then "Not Found"
  else if code = 500 then "Internal Server Error"
  else ""

/-- Go `ioutil.TempFile`: the first name tried that is not in use is created. -/
def TempFile (env : Env) (fs : FS) : Except String String :=
  match env.tmpErr with
  | some e => .error e
  | none =>
    match env.tmpNames.find? (fun n => (fs n).isNone) with
    | some n => .ok n
    | none => .error "file exists"

/-- What `io.Copy(tmpfile, io.TeeReader(req.Body, h))` leaves behind. -/
structure CopyResult where
  /-- The bytes written to the hash `h`. -/
  hashed : Bytes
  /-- The bytes written to the temporary file. -/
  written : Bytes
  err : Option String
  deriving DecidableEq, Repr

/-- The loop of `io.Copy` over the reads of the tee reader: each read is written to the
hash by the tee reader, then to the file; `k` counts the writes to the file. -/
def copyLoop (env : Env) (readErr : Option String) :
    List Bytes → Nat → Bytes → Bytes → CopyResult
  | [], _, hashed, written => ⟨hashed, written, readErr⟩
  | c :: cs, k, hashed, written =>
    if c.isEmpty then copyLoop env readErr cs k hashed written
    else
      match env.writeFault k with
      | some (nw, e) => ⟨hashed ++ c, written ++ c.take nw, some e⟩
      | none => copyLoop env readErr cs (k + 1) (hashed ++ c) (written ++ c)

/-- The statement `io.Copy(tmpfile, teeBody)` on a fresh hash and the empty file. -/
def copyTee (env : Env) (body : Body) : CopyResult :=
  copyLoop env body.err body.chunks 0 [] []

/-- The error of `os.Stat`. -/
inductive StatErr where
  | nil
  | notExist
  | other (e : String)
  deriving DecidableEq, Repr

def Stat (env : Env) (fs : FS) (path : String) : StatErr :=
  match env.statErr with
  | some e => .other e
  | none => if (fs path).isSome then .nil else .notExist

/-- Go `os.IsNotExist`. -/
def IsNotExist : StatErr → Bool
  | .notExist => true
  | _ => false

/-- Go `os.Rename`. -/
def Rename (env : Env) (fs : FS) (oldpath newpath : String) : FS × Option String :=
  match env.renameErr with
  | some e => (fs, some e)
  | none =>
    match fs oldpath with
    | none => (fs, some ("rename " ++ oldpath ++ " " ++ newpath ++ ": no such file or directory"))
    | some b => ((fs.remove oldpath).write newpath b, none)

/-- Path under which `uploadAPI` stores a body whose hashed bytes are `hashed`
(main.go lines 72-73). -/
def storePath (cfg : Config) (lib : Lib) (hashed : Bytes) : String :=
  lib.filepathJoin cfg.dataDir (hexString (sha1Sum hashed))

/-- The end of `uploadAPI` (main.go lines 92-99), given how `zipCheck(path)` ended: its
error is wrapped with status 400, nil gives nil, a panic goes on up. -/
def afterZipCheck : Outcome (Option GoError) → Outcome (Option apiError)
  | .ret (some e) =>
    .ret (some ⟨Errorf "error at ipa check: %s" [e.Error], StatusBadRequest⟩)
  | .ret none => .ret none
  | .panic msg => .panic msg

/-- The statements of `uploadAPI` after the `defer` (main.go lines 64-99); `tmp` is
`tmpfile.Name()` and `fs` holds the empty temporary file. -/
def uploadBody (cfg : Config) (lib : Lib) (env : Env) (fs : FS) (tmp : String)
    (body : Body) : FS × Outcome (Option apiError) :=
  let r := copyTee env body
  let fs1 := fs.write tmp r.written
  match r.err with
  | some e => (fs1, .ret (some ⟨Errorf "copy to tmpfile: %s" [e], StatusInternalServerError⟩))
  | none =>
    let path := storePath cfg lib r.hashed
    if !IsNotExist (Stat env fs1 path) then
      (fs1, .ret (some ⟨Errorf "%s is already exists" [path], StatusBadRequest⟩))
    else
      match Rename env fs1 tmp path with
      | (fs2, some e) =>
        (fs2, .ret (some ⟨Errorf "failed to rename tmpfile: %s" [e],
          StatusInternalServerError⟩))
      | (fs2, none) => (fs2, afterZipCheck (zipCheck cfg lib fs2 path).2)

/-- Go function `uploadAPI` (main.go): the file system it leaves and how the call ends;
`ret none` is a nil `*apiError`. The deferred `os.Remove(tmpfile.Name())` runs on every
way out once the temporary file exists, a panic included. -/
def uploadAPI (cfg : Config) (lib : Lib) (env : Env) (fs : FS) (body : Body) :
    FS × Outcome (Option apiError) :=
  match TempFile env fs with
  | .error e =>
    (fs, .ret (some ⟨Errorf "create tmpfile: %s" [e], StatusInternalServerError⟩))
  | .ok tmp =>
    let r := uploadBody cfg lib env (fs.write tmp []) tmp body
    (r.1.remove tmp, r.2)

/-! ## httpAPI -/

structure Request where
  Method : String
  Path : String
  Body : Body

/-- What the handler wrote to the `http.ResponseWriter`. -/
structure Response where
  status : Nat
  body : String
  deriving DecidableEq, Repr

/-- Go function `httpAPI` (main.go): the file system it leaves and how the call ends. -/
def httpAPI (cfg : Config) (lib : Lib) (env : Env) (fs : FS) (req : Request) :
    FS × Outcome Response :=
  if req.Path = "/upload" ∧ req.Method = "PUT" then
    match uploadAPI cfg lib env fs req.Body with
    | (fs1, .ret (some apierr)) => (fs1, .ret ⟨apierr.Status, StatusText apierr.Status⟩)
    | (fs1, .ret none) => (fs1, .ret ⟨StatusOK, StatusText StatusOK⟩)
    | (fs1, .panic msg) => (fs1, .panic msg)
  else if req.Path ≠ "/" then
    (fs, .ret ⟨StatusNotFound, "404 page not found\n"⟩)
  else
    (fs, .ret ⟨StatusOK, "Welcome to the home page!"⟩)

/-! ## Vocabulary of the statements -/

/-- How a run of the upload ends, told by what happens at its stages in order: the first
stage that fails, a rejection or a panic of `zipCheck` on the stored body, or acceptance. -/
inductive UploadEnd where
  /-- `ioutil.TempFile` fails. -/
  | tmpfileFailed
  /-- `io.Copy` fails: reading the body or writing the temporary file. -/
  | copyFailed
  /-- `os.Stat` finds an object at the target path. -/
  | duplicateContent
  /-- `os.Stat` of the target path fails with an error other than "does not exist". -/
  | statFailed
  /-- `os.Rename` fails. -/
  | renameFailed
  /-- On the stored body `zipCheck` returns an error. -/
  | rejected
  /-- On the stored body `zipCheck` panics. -/
  | panicked
  /-- On the stored body `zipCheck` returns nil. -/
  | accepted
  deriving DecidableEq, Repr

/-- The end of the run of an upload of `body`, read off the stages themselves
(`TempFile`, `copyTee`, `Stat`, the rename, `zipCheck` on the stored body). -/
def uploadEnd (cfg : Config) (lib : Lib) (env : Env) (fs : FS) (body : Body) : UploadEnd :=
  match TempFile env fs with
  | .error _ => .tmpfileFailed
  | .ok tmp =>
    match (copyTee env body).err with
    | some _ => .copyFailed
    | none =>
      match Stat env ((fs.write tmp []).write tmp body.chunks.flatten)
          (storePath cfg lib body.chunks.flatten) with
      | .nil => .duplicateContent
      | .other _ => .statFailed
      | .notExist =>
        match env.renameErr with
        | some _ => .renameFailed
        | none =>
          match (zipCheck cfg lib
              (fs.write (storePath cfg lib body.chunks.flatten) body.chunks.flatten)
              (storePath cfg lib body.chunks.flatten)).2 with
          | .ret (some _) => .rejected
          | .ret none => .accepted
          | .panic _ => .panicked

/-- The client-caused failures, in the words of the claim: duplicate content, or a
rejection by `zipCheck`. -/
def clientCaused : UploadEnd → Bool
  | .duplicateContent => true
  | .rejected => true
  | _ => false

/-- The storage failures, in the words of the claim: creating the temporary file, the
copy, the rename. -/
def storageCaused : UploadEnd → Bool
  | .tmpfileFailed => true
  | .copyFailed => true
  | .renameFailed => true
  | _ => false

/-- The ends of a run that `os.Stat` not answering "does not exist" or a rejection by
`zipCheck` brings about: the client-caused ones and a failure of `os.Stat` itself. -/
def notFreeOrRejected : UploadEnd → Bool
  | .duplicateContent => true
  | .statFailed => true
  | .rejected => true
  | _ => false

/-! ## Sample libraries and inputs

Small stand-ins for the libraries, used to run the definitions on concrete inputs. -/

/-- A toy signed message: one signature byte, then the payload. -/
def sampleParse (b : Bytes) : Except String PKCS7 :=
  match b with
  | [] => .error "ber2der: input ber is empty"
  | sig :: payload => .ok ⟨payload, [], [[sig]]⟩

/-- The toy signature is the length of the payload. -/
def sampleVerify (msg : PKCS7) : Option String :=
  if msg.Signers = [[toByte msg.Content.length]] then none
  else some "pkcs7: signature mismatch"

/-- A toy decoder knowing four payloads. -/
def sampleUnmarshal (b : Bytes) : Except String GoMap :=
  if b = [0] then
    .ok [("Name", .str "dist"),
      ("Entitlements", .dict [("get-task-allow", .bool false),
        ("application-identifier", .str "ABC.myapp")])]
  else if b = [1] then .ok [("Name", .str "dist")]
  else if b = [2] then .ok [("Entitlements", .dict [("get-task-allow", .bool false)])]
  else if b = [3] then .ok [("Entitlements", .str "none")]
  else .error "plist: type mismatch"

/-- A library whose archive reader accepts any content of at least 22 bytes (the size of
an empty archive) and then lists `files`. -/
def sampleLib (files : List ZipFile) : Lib where
  zipNewReader := fun content =>
    if content.length < 22 then .error "zip: not a valid zip file" else .ok files
  pkcs7Parse := sampleParse
  pkcs7Verify := sampleVerify
  plistUnmarshal := sampleUnmarshal
  fmtOperand := fun v => "%!s(" ++ goTypeName (some v) ++ ")"
  filepathJoin := fun dir name => dir ++ "/" ++ name

def sampleConfig : Config :=
  ⟨"ABC.myapp", "data", false⟩

def sampleContent : Bytes :=
  List.replicate 22 0

/-- A file system holding one file. -/
def sampleFS (path : String) (content : Bytes) : FS :=
  fun q => if q = path then some content else none

def emptyFS : FS :=
  fun _ => none

/-- No system call fails; the temporary file gets the first of two names that is free. -/
def sampleEnv : Env :=
  ⟨none, ["/tmp/uploading.1", "/tmp/uploading.2"], fun _ => none, none, none⟩

/-- As `sampleEnv`, but `os.Stat` fails: the data directory cannot be searched. -/
def statFailsEnv : Env :=
  ⟨none, ["/tmp/uploading.1", "/tmp/uploading.2"], fun _ => none,
    some "permission denied", none⟩

/-- Signed, with the identifier `ABC.myapp`. -/
def manifestGood : ZipFile :=
  ⟨"Payload/My.app/embedded.mobileprovision", .ok (.ok [1, 0])⟩

/-- Signed, decodes to a tree without `Entitlements`. -/
def manifestNoEntitlements : ZipFile :=
  ⟨"Payload/My.app/embedded.mobileprovision", .ok (.ok [1, 1])⟩

/-- Signed, `Entitlements` is a mapping without `application-identifier`. -/
def manifestNoAppID : ZipFile :=
  ⟨"Payload/My.app/PlugIns/Ext.appex/embedded.mobileprovision", .ok (.ok [1, 2])⟩

/-- The signature does not match the payload. -/
def manifestTampered : ZipFile :=
  ⟨"Payload/My.app/embedded.mobileprovision", .ok (.ok [9, 0])⟩

def infoPlist : ZipFile :=
  ⟨"Payload/My.app/Info.plist", .ok (.ok [7])⟩

/-! ## Lemmas on the loop of zipCheck -/

theorem interfaceEqString_iff (v : Option Value) (s : String) :
    interfaceEqString v s = true ↔ v = some (.str s) := by
  unfold interfaceEqString
  split
  · simp
  · rename_i h
    constructor
    · intro hf
      exact absurd hf (by simp)
    · intro hv
      subst hv
      exact (h s rfl).elim

theorem zipCheckLoop_skip (cfg : Config) (lib : Lib) (f : ZipFile) (rest : List ZipFile)
    (hf : isManifest f = false) :
    zipCheckLoop cfg lib (f :: rest) = zipCheckLoop cfg lib rest := by
  simp [zipCheckLoop, hf]

theorem zipCheckLoop_pass (cfg : Config) (lib : Lib) (f : ZipFile) (rest : List ZipFile)
    (hf : isManifest f = true) (hp : (zipCheckMember cfg lib f).2 = .ret none) :
    zipCheckLoop cfg lib (f :: rest) =
      ((zipCheckMember cfg lib f).1 ++ (zipCheckLoop cfg lib rest).1,
        (zipCheckLoop cfg lib rest).2) := by
  rcases hm : zipCheckMember cfg lib f with ⟨t, o⟩
  rw [hm] at hp
  simp only at hp
  subst hp
  simp [zipCheckLoop, hf, hm]

theorem zipCheckLoop_stop (cfg : Config) (lib : Lib) (f : ZipFile) (rest : List ZipFile)
    (hf : isManifest f = true) (hp : (zipCheckMember cfg lib f).2 ≠ .ret none) :
    zipCheckLoop cfg lib (f :: rest) = zipCheckMember cfg lib f := by
  rcases hm : zipCheckMember cfg lib f with ⟨t, o⟩
  rw [hm] at hp
  simp only at hp
  cases o with
  | panic msg => simp [zipCheckLoop, hf, hm]
  | ret r =>
    cases r with
    | none => exact absurd rfl hp
    | some e => simp [zipCheckLoop, hf, hm]

theorem zipCheckLoop_filter (cfg : Config) (lib : Lib) (files : List ZipFile) :
    zipCheckLoop cfg lib files = zipCheckLoop cfg lib (files.filter isManifest) := by
  induction files with
  | nil => rfl
  | cons f rest ih =>
    cases hf : isManifest f
    · rw [zipCheckLoop_skip cfg lib f rest hf, List.filter_cons_of_neg (by simp [hf]), ih]
    · rw [List.filter_cons_of_pos hf]
      by_cases hp : (zipCheckMember cfg lib f).2 = .ret none
      · rw [zipCheckLoop_pass cfg lib f _ hf hp, zipCheckLoop_pass cfg lib f _ hf hp, ih]
      · rw [zipCheckLoop_stop cfg lib f _ hf hp, zipCheckLoop_stop cfg lib f _ hf hp]

theorem zipCheckLoop_append (cfg : Config) (lib : Lib) (pre rest : List ZipFile)
    (hpre : ∀ g ∈ pre, isManifest g = true → (zipCheckMember cfg lib g).2 = .ret none) :
    zipCheckLoop cfg lib (pre ++ rest) =
      ((zipCheckLoop cfg lib pre).1 ++ (zipCheckLoop cfg lib rest).1,
        (zipCheckLoop cfg lib rest).2) := by
  induction pre with
  | nil => simp [zipCheckLoop]
  | cons g pre ih =>
    have ih1 := ih (fun x hx => hpre x (List.mem_cons_of_mem _ hx))
    cases hg : isManifest g
    · rw [List.cons_append, zipCheckLoop_skip cfg lib g _ hg, zipCheckLoop_skip cfg lib g _ hg,
        ih1]
    · have hp := hpre g (List.mem_cons_self _ _) hg
      rw [List.cons_append, zipCheckLoop_pass cfg lib g _ hg hp,
        zipCheckLoop_pass cfg lib g _ hg hp, ih1]
      simp

theorem zipCheckLoop_nil_iff (cfg : Config) (lib : Lib) (files : List ZipFile) :
    (zipCheckLoop cfg lib files).2 = .ret none ↔
      ∀ f ∈ files, isManifest f = true → (zipCheckMember cfg lib f).2 = .ret none := by
  induction files with
  | nil => simp [zipCheckLoop]
  | cons f rest ih =>
    cases hf : isManifest f
    · rw [zipCheckLoop_skip cfg lib f rest hf, ih]
      simp [hf]
    · by_cases hp : (zipCheckMember cfg lib f).2 = .ret none
      · rw [zipCheckLoop_pass cfg lib f _ hf hp]
        simp only [ih, List.mem_cons, forall_eq_or_imp, hp, implies_true, true_and]
      · rw [zipCheckLoop_stop cfg lib f _ hf hp]
        simp [hp, hf]

/-! ## Lemmas on one member -/

theorem zipCheckLoop_single (cfg : Config) (lib : Lib) (f : ZipFile)
    (hf : isManifest f = true) :
    (zipCheckLoop cfg lib [f]).2 = (zipCheckMember cfg lib f).2 := by
  by_cases hp : (zipCheckMember cfg lib f).2 = .ret none
  · rw [zipCheckLoop_pass cfg lib f _ hf hp, hp]
    rfl
  · rw [zipCheckLoop_stop cfg lib f _ hf hp]

theorem loadPKCS7Content_ok_iff (lib : Lib) (r : Except String Bytes) (p : Bytes) :
    (loadPKCS7Content lib r).2 = .ok p ↔
      ∃ b msg, r = .ok b ∧ lib.pkcs7Parse b = .ok msg ∧ lib.pkcs7Verify msg = none ∧
        p = msg.Content := by
  constructor
  · intro h
    cases r with
    | error e => simp [loadPKCS7Content] at h
    | ok b =>
      cases hparse : lib.pkcs7Parse b with
      | error e => simp [loadPKCS7Content, hparse] at h
      | ok msg =>
        cases hverify : lib.pkcs7Verify msg with
        | some e => simp [loadPKCS7Content, hparse, hverify] at h
        | none =>
          simp [loadPKCS7Content, hparse, hverify] at h
          exact ⟨b, msg, rfl, hparse, hverify, h.symm⟩
  · rintro ⟨b, msg, rfl, hparse, hverify, rfl⟩
    simp [loadPKCS7Content, hparse, hverify]

theorem zipCheckMember_verified (cfg : Config) (lib : Lib) (f : ZipFile) (b : Bytes)
    (msg : PKCS7) (profile : GoMap) (hread : f.Open = .ok (.ok b))
    (hparse : lib.pkcs7Parse b = .ok msg) (hverify : lib.pkcs7Verify msg = none)
    (hdecode : lib.plistUnmarshal msg.Content = .ok profile) :
    zipCheckMember cfg lib f =
      ([.fileOpen f.Name, .readAll f.Name, .pkcs7Parse b, .pkcs7Verify msg,
        .plistUnmarshal msg.Content], checkAppID cfg lib profile) := by
  simp [zipCheckMember, hread, loadPKCS7Content, hparse, hverify, parseProvisioningProfile,
    hdecode]

theorem checkAppID_dict (cfg : Config) (lib : Lib) (profile ent : GoMap)
    (hent : profile.index "Entitlements" = some (.dict ent)) :
    checkAppID cfg lib profile =
      if interfaceEqString (ent.index "application-identifier") cfg.appIdentifier then
        .ret none
      else
        .ret (some (Errorf "invalid appid: `%s` but `%s` is expected"
          [fmtS lib (ent.index "application-identifier"), cfg.appIdentifier])) := by
  unfold checkAppID
  rw [hent]
  simp only
  cases interfaceEqString (GoMap.index ent "application-identifier") cfg.appIdentifier <;> rfl

theorem checkAppID_not_dict (cfg : Config) (lib : Lib) (profile : GoMap)
    (hent : ∀ ent, profile.index "Entitlements" ≠ some (.dict ent)) :
    checkAppID cfg lib profile = .panic (typeAssertPanic (profile.index "Entitlements")) := by
  unfold checkAppID
  split
  · rename_i ent h
    exact absurd h (hent ent)
  · rfl

theorem checkAppID_nil_iff (cfg : Config) (lib : Lib) (profile : GoMap) :
    checkAppID cfg lib profile = .ret none ↔
      ∃ ent : GoMap, profile.index "Entitlements" = some (.dict ent) ∧
        ent.index "application-identifier" = some (.str cfg.appIdentifier) := by
  constructor
  · intro h
    by_cases hd : ∃ ent : GoMap, profile.index "Entitlements" = some (.dict ent)
    · obtain ⟨ent, hent⟩ := hd
      refine ⟨ent, hent, ?_⟩
      rw [checkAppID_dict cfg lib profile ent hent] at h
      by_cases he : interfaceEqString (ent.index "application-identifier") cfg.appIdentifier
          = true
      · exact (interfaceEqString_iff _ _).1 he
      · simp [he] at h
    · rw [checkAppID_not_dict cfg lib profile (fun ent he => hd ⟨ent, he⟩)] at h
      simp at h
  · rintro ⟨ent, hent, happ⟩
    rw [checkAppID_dict cfg lib profile ent hent, (interfaceEqString_iff _ _).2 happ]
    rfl

/-- A member passes exactly when it opens and reads, its message parses and verifies, the
payload decodes, `Entitlements` is a mapping and its `application-identifier` is the
configured string. -/
theorem zipCheckMember_nil_iff (cfg : Config) (lib : Lib) (f : ZipFile) :
    (zipCheckMember cfg lib f).2 = .ret none ↔
      ∃ (b : Bytes) (msg : PKCS7) (profile ent : GoMap),
        f.Open = .ok (.ok b) ∧ lib.pkcs7Parse b = .ok msg ∧
        lib.pkcs7Verify msg = none ∧ lib.plistUnmarshal msg.Content = .ok profile ∧
        profile.index "Entitlements" = some (.dict ent) ∧
        ent.index "application-identifier" = some (.str cfg.appIdentifier) := by
  constructor
  · intro h
    cases hopen : f.Open with
    | error e => simp [zipCheckMember, hopen] at h
    | ok rc =>
      cases rc with
      | error e => simp [zipCheckMember, hopen, loadPKCS7Content] at h
      | ok b =>
        cases hparse : lib.pkcs7Parse b with
        | error e => simp [zipCheckMember, hopen, loadPKCS7Content, hparse] at h
        | ok msg =>
          cases hverify : lib.pkcs7Verify msg with
          | some e => simp [zipCheckMember, hopen, loadPKCS7Content, hparse, hverify] at h
          | none =>
            cases hdecode : lib.plistUnmarshal msg.Content with
            | error e =>
              simp [zipCheckMember, hopen, loadPKCS7Content, hparse, hverify,
                parseProvisioningProfile, hdecode] at h
            | ok profile =>
              rw [zipCheckMember_verified cfg lib f b msg profile hopen hparse hverify
                hdecode] at h
              obtain ⟨ent, hent, happ⟩ := (checkAppID_nil_iff cfg lib profile).1 h
              exact ⟨b, msg, profile, ent, rfl, hparse, hverify, hdecode, hent, happ⟩
  · rintro ⟨b, msg, profile, ent, hopen, hparse, hverify, hdecode, hent, happ⟩
    rw [zipCheckMember_verified cfg lib f b msg profile hopen hparse hverify hdecode]
    exact (checkAppID_nil_iff cfg lib profile).2 ⟨ent, hent, happ⟩

theorem zipCheck_opened (cfg : Config) (lib : Lib) (fs : FS) (path : String)
    (files : List ZipFile) (hopen : zipOpenReader lib fs path = .ok files) :
    zipCheck cfg lib fs path = zipCheckLoop cfg lib files := by
  simp [zipCheck, hopen]

/-! ## zipCheck: the claims -/

/-- C5. An archive that opens and has no member whose name ends in
"embedded.mobileprovision" (the archive without members included) makes `zipCheck` return
nil, whatever the configuration and the libraries, and the call log is empty: no member is
opened, no signature is verified and nothing is decoded. -/
theorem zipCheck_no_manifest_accepts (cfg : Config) (lib : Lib) (fs : FS) (path : String)
    (files : List ZipFile) (hopen : zipOpenReader lib fs path = .ok files)
    (hnone : ∀ f ∈ files, isManifest f = false) :
    zipCheck cfg lib fs path = ([], .ret none) := by
  rw [zipCheck_opened cfg lib fs path files hopen, zipCheckLoop_filter,
    List.filter_eq_nil_iff.2 (fun f hf => by simp [hnone f hf])]
  rfl

theorem zipCheck_no_manifest_accepts_witness :
    zipCheck ⟨"XYZ.other", "data", false⟩ (sampleLib [infoPlist]) (sampleFS "data/ab" sampleContent)
      "data/ab" = ([], .ret none) :=
  zipCheck_no_manifest_accepts ⟨"XYZ.other", "data", false⟩ (sampleLib [infoPlist])
    (sampleFS "data/ab" sampleContent) "data/ab" [infoPlist] (by rfl) (by decide)

/-- C1. For an archive that opens and has exactly one member `f` whose name ends in
"embedded.mobileprovision", whose content parses and verifies as a signed message and whose
payload decodes to a tree in which `Entitlements` is a mapping `ent`: `zipCheck` returns nil
exactly when `ent["application-identifier"]` is a string equal to `appIdentifier` (the empty
string included); in every other case (another string, no such key, a value that is not a
string) it returns the error `invalid appid`, whose operands are the text of the actual value
and the expected identifier, both of which stand in the message. -/
theorem zipCheck_single_manifest_appid (cfg : Config) (lib : Lib) (fs : FS) (path : String)
    (files : List ZipFile) (f : ZipFile) (b : Bytes) (msg : PKCS7) (profile ent : GoMap)
    (hopen : zipOpenReader lib fs path = .ok files)
    (hone : files.filter isManifest = [f])
    (hread : f.Open = .ok (.ok b))
    (hparse : lib.pkcs7Parse b = .ok msg) (hverify : lib.pkcs7Verify msg = none)
    (hdecode : lib.plistUnmarshal msg.Content = .ok profile)
    (hent : profile.index "Entitlements" = some (.dict ent)) :
    ((zipCheck cfg lib fs path).2 = .ret none ↔
        ent.index "application-identifier" = some (.str cfg.appIdentifier)) ∧
      (ent.index "application-identifier" ≠ some (.str cfg.appIdentifier) →
        ∃ e : GoError, (zipCheck cfg lib fs path).2 = .ret (some e) ∧
          e = Errorf "invalid appid: `%s` but `%s` is expected"
            [fmtS lib (ent.index "application-identifier"), cfg.appIdentifier] ∧
          e.Error = "invalid appid: `" ++ fmtS lib (ent.index "application-identifier") ++
            "` but `" ++ cfg.appIdentifier ++ "` is expected") := by
  have hf : isManifest f = true := by
    have hmem : f ∈ files.filter isManifest := by simp [hone]
    exact (List.mem_filter.1 hmem).2
  have hz : (zipCheck cfg lib fs path).2 = checkAppID cfg lib profile := by
    rw [zipCheck_opened cfg lib fs path files hopen, zipCheckLoop_filter, hone,
      zipCheckLoop_single cfg lib f hf,
      zipCheckMember_verified cfg lib f b msg profile hread hparse hverify hdecode]
  rw [hz]
  constructor
  · rw [checkAppID_nil_iff, hent]
    constructor
    · rintro ⟨ent1, h1, h2⟩
      have h3 : ent = ent1 := by
        have h4 := Option.some.inj h1
        injection h4
      rw [h3]
      exact h2
    · intro h
      exact ⟨ent, rfl, h⟩
  · intro hne
    have hb : interfaceEqString (ent.index "application-identifier") cfg.appIdentifier
        = false := by
      cases hx : interfaceEqString (ent.index "application-identifier") cfg.appIdentifier
      · rfl
      · exact absurd ((interfaceEqString_iff _ _).1 hx) hne
    refine ⟨_, ?_, rfl, ?_⟩
    · rw [checkAppID_dict cfg lib profile ent hent, hb]
      rfl
    · apply String.ext
      simp [GoError.Error, Errorf, Sprintf, sprintfAux]

theorem zipCheck_single_manifest_appid_witness :
    (zipCheck ⟨"XYZ.other", "data", false⟩ (sampleLib [infoPlist, manifestGood])
        (sampleFS "data/ab" sampleContent) "data/ab").2 =
      .ret (some (Errorf "invalid appid: `%s` but `%s` is expected"
        ["ABC.myapp", "XYZ.other"])) := by
  obtain ⟨e, h1, h2, _⟩ :=
    (zipCheck_single_manifest_appid ⟨"XYZ.other", "data", false⟩
      (sampleLib [infoPlist, manifestGood]) (sampleFS "data/ab" sampleContent) "data/ab"
      [infoPlist, manifestGood] manifestGood [1, 0] ⟨[0], [], [[1]]⟩
      [("Name", .str "dist"),
        ("Entitlements", .dict [("get-task-allow", .bool false),
          ("application-identifier", .str "ABC.myapp")])]
      [("get-task-allow", .bool false), ("application-identifier", .str "ABC.myapp")]
      (by rfl) (by decide) (by rfl) (by rfl) (by rfl) (by rfl) (by rfl)).2
      (by
        intro h
        have h1 := Option.some.inj h
        injection h1 with h2
        exact absurd h2 (by decide))
  rw [h1, h2]
  rfl

/-- C2 (what the code does instead). When the first member that does not pass is a
verified manifest whose decoded tree has no `Entitlements` key, or an `Entitlements` value
that is not a mapping, `zipCheck` returns nothing: the unchecked type assertion panics. -/
theorem zipCheck_panics_without_entitlements_map (cfg : Config) (lib : Lib) (fs : FS)
    (path : String) (files pre : List ZipFile) (f : ZipFile) (post : List ZipFile)
    (b : Bytes) (msg : PKCS7) (profile : GoMap)
    (hopen : zipOpenReader lib fs path = .ok files)
    (hfiles : files = pre ++ f :: post)
    (hpre : ∀ g ∈ pre, isManifest g = true → (zipCheckMember cfg lib g).2 = .ret none)
    (hf : isManifest f = true)
    (hread : f.Open = .ok (.ok b))
    (hparse : lib.pkcs7Parse b = .ok msg) (hverify : lib.pkcs7Verify msg = none)
    (hdecode : lib.plistUnmarshal msg.Content = .ok profile)
    (hent : ∀ ent, profile.index "Entitlements" ≠ some (.dict ent)) :
    (zipCheck cfg lib fs path).2 =
      .panic (typeAssertPanic (profile.index "Entitlements")) := by
  have hm : (zipCheckMember cfg lib f).2 =
      .panic (typeAssertPanic (profile.index "Entitlements")) := by
    rw [zipCheckMember_verified cfg lib f b msg profile hread hparse hverify hdecode,
      checkAppID_not_dict cfg lib profile hent]
  have hne : (zipCheckMember cfg lib f).2 ≠ .ret none := by
    rw [hm]
    intro h
    cases h
  rw [zipCheck_opened cfg lib fs path files hopen, hfiles,
    zipCheckLoop_append cfg lib pre _ hpre, zipCheckLoop_stop cfg lib f post hf hne, hm]

theorem zipCheck_panics_without_entitlements_map_witness :
    (zipCheck sampleConfig (sampleLib [infoPlist, manifestNoEntitlements])
        (sampleFS "data/ab" sampleContent) "data/ab").2 =
      .panic "interface conversion: interface \x7b\x7d is nil, not map[string]interface \x7b\x7d" :=
  zipCheck_panics_without_entitlements_map sampleConfig
    (sampleLib [infoPlist, manifestNoEntitlements]) (sampleFS "data/ab" sampleContent)
    "data/ab" [infoPlist, manifestNoEntitlements] [infoPlist] manifestNoEntitlements []
    [1, 1] ⟨[1], [], [[1]]⟩ [("Name", .str "dist")]
    (by rfl) (by rfl) (by decide) (by decide) (by rfl) (by rfl) (by rfl) (by rfl)
    (by
      intro ent h
      have h1 : (none : Option Value) = some (.dict ent) := h
      cases h1)

/-- C3. When the archive opens and `f` is a member whose name ends in
"embedded.mobileprovision", every such member before it passes, and the content of `f`
does not parse as a signed message or its signature does not verify, then `zipCheck` returns
the error `smime error` that carries the error of `loadPKCS7Content`, for every configuration;
the call log ends with the calls made on `f` and holds no call of the decoder for `f`; the
outcome for `f` is the same under every configuration and every decoder; and
`loadPKCS7Content` gives a payload only when the message parses and verifies, the payload
being the content of that message. -/
theorem zipCheck_unverified_rejects (cfg : Config) (lib : Lib) (fs : FS) (path : String)
    (files pre : List ZipFile) (f : ZipFile) (post : List ZipFile) (b : Bytes)
    (hopen : zipOpenReader lib fs path = .ok files)
    (hfiles : files = pre ++ f :: post)
    (hpre : ∀ g ∈ pre, isManifest g = true → (zipCheckMember cfg lib g).2 = .ret none)
    (hf : isManifest f = true)
    (hread : f.Open = .ok (.ok b))
    (hbad : (∃ e, lib.pkcs7Parse b = .error e) ∨
      ∃ msg e, lib.pkcs7Parse b = .ok msg ∧ lib.pkcs7Verify msg = some e) :
    (∃ e : GoError, (loadPKCS7Content lib (.ok b)).2 = .error e ∧
        (zipCheck cfg lib fs path).2 =
          .ret (some (Errorf "smime error: %s %s" [f.Name, e.Error]))) ∧
      (zipCheck cfg lib fs path).1 =
        (zipCheckLoop cfg lib pre).1 ++ (zipCheckMember cfg lib f).1 ∧
      (∀ p, Call.plistUnmarshal p ∉ (zipCheckMember cfg lib f).1) ∧
      (∀ (cfg1 : Config) (lib1 : Lib), lib1.pkcs7Parse = lib.pkcs7Parse →
        lib1.pkcs7Verify = lib.pkcs7Verify →
        zipCheckMember cfg1 lib1 f = zipCheckMember cfg lib f) ∧
      (∀ r p, (loadPKCS7Content lib r).2 = .ok p ↔
        ∃ b1 msg, r = .ok b1 ∧ lib.pkcs7Parse b1 = .ok msg ∧ lib.pkcs7Verify msg = none ∧
          p = msg.Content) := by
  have key : ∃ (t : List Call) (e : GoError),
      (∀ lib1 : Lib, lib1.pkcs7Parse = lib.pkcs7Parse → lib1.pkcs7Verify = lib.pkcs7Verify →
        loadPKCS7Content lib1 (.ok b) = (t, .error e)) ∧
      ∀ p, Call.plistUnmarshal p ∉ t := by
    rcases hbad with ⟨e, he⟩ | ⟨msg, e, hm, hv⟩
    · refine ⟨[.pkcs7Parse b], Errorf "failed to parse pkcs7: %s" [e], ?_, ?_⟩
      · intro lib1 h1 _
        simp [loadPKCS7Content, h1, he]
      · intro p
        simp
    · refine ⟨[.pkcs7Parse b, .pkcs7Verify msg], Errorf "failed to verify: %s" [e], ?_, ?_⟩
      · intro lib1 h1 h2
        simp [loadPKCS7Content, h1, h2, hm, hv]
      · intro p
        simp
  obtain ⟨t, e, hload, hlog⟩ := key
  have hmem : ∀ (cfg1 : Config) (lib1 : Lib), lib1.pkcs7Parse = lib.pkcs7Parse →
      lib1.pkcs7Verify = lib.pkcs7Verify →
      zipCheckMember cfg1 lib1 f =
        ([.fileOpen f.Name, .readAll f.Name] ++ t,
          .ret (some (Errorf "smime error: %s %s" [f.Name, e.Error]))) := by
    intro cfg1 lib1 h1 h2
    simp [zipCheckMember, hread, hload lib1 h1 h2]
  have hm := hmem cfg lib rfl rfl
  have hne : (zipCheckMember cfg lib f).2 ≠ .ret none := by
    rw [hm]
    intro h
    cases h
  have hz : zipCheck cfg lib fs path =
      ((zipCheckLoop cfg lib pre).1 ++ (zipCheckMember cfg lib f).1,
        (zipCheckMember cfg lib f).2) := by
    rw [zipCheck_opened cfg lib fs path files hopen, hfiles,
      zipCheckLoop_append cfg lib pre _ hpre, zipCheckLoop_stop cfg lib f post hf hne]
  refine ⟨⟨e, ?_, ?_⟩, ?_, ?_, ?_, ?_⟩
  · rw [hload lib rfl rfl]
  · rw [hz, hm]
  · rw [hz]
  · intro p
    rw [hm]
    simpa using hlog p
  · intro cfg1 lib1 h1 h2
    rw [hmem cfg1 lib1 h1 h2, hm]
  · intro r p
    exact loadPKCS7Content_ok_iff lib r p

theorem zipCheck_unverified_rejects_witness :
    (zipCheck sampleConfig (sampleLib [manifestGood, infoPlist, manifestTampered])
        (sampleFS "data/ab" sampleContent) "data/ab").2 =
      .ret (some (Errorf "smime error: %s %s"
        ["Payload/My.app/embedded.mobileprovision",
          "failed to verify: pkcs7: signature mismatch"])) := by
  obtain ⟨e, h1, h2⟩ :=
    (zipCheck_unverified_rejects sampleConfig
      (sampleLib [manifestGood, infoPlist, manifestTampered])
      (sampleFS "data/ab" sampleContent) "data/ab"
      [manifestGood, infoPlist, manifestTampered] [manifestGood, infoPlist]
      manifestTampered [] [9, 0] (by rfl) (by rfl) (by decide) (by decide) (by rfl)
      (Or.inr ⟨⟨[0], [], [[9]]⟩, "pkcs7: signature mismatch", by rfl, by rfl⟩)).1
  have h3 : e = Errorf "failed to verify: %s" ["pkcs7: signature mismatch"] := by
    have h4 : (loadPKCS7Content (sampleLib [manifestGood, infoPlist, manifestTampered])
        (.ok [9, 0])).2 = .error (Errorf "failed to verify: %s" ["pkcs7: signature mismatch"]) := by
      rfl
    rw [h4] at h1
    injection h1 with h5
    exact h5.symm
  rw [h2, h3]
  decide

/-- C4 (what the code does instead). When the first member of that suffix that does not
pass is one whose check panics (a verified manifest without an `Entitlements` mapping, the
defect of C2), `zipCheck` ends in that panic: no error, of that member or of any other, is
returned to the caller. -/
theorem zipCheck_first_failure_panics (cfg : Config) (lib : Lib) (fs : FS) (path : String)
    (files pre : List ZipFile) (f : ZipFile) (post : List ZipFile) (msg : String)
    (hopen : zipOpenReader lib fs path = .ok files)
    (hfiles : files = pre ++ f :: post)
    (hpre : ∀ g ∈ pre, isManifest g = true → (zipCheckMember cfg lib g).2 = .ret none)
    (hf : isManifest f = true)
    (hpanic : (zipCheckMember cfg lib f).2 = .panic msg) :
    (zipCheck cfg lib fs path).2 = .panic msg ∧
      ∀ r, (zipCheck cfg lib fs path).2 ≠ .ret r := by
  have hne : (zipCheckMember cfg lib f).2 ≠ .ret none := by
    rw [hpanic]
    intro h
    cases h
  have hz : (zipCheck cfg lib fs path).2 = .panic msg := by
    rw [zipCheck_opened cfg lib fs path files hopen, hfiles,
      zipCheckLoop_append cfg lib pre _ hpre, zipCheckLoop_stop cfg lib f post hf hne, hpanic]
  refine ⟨hz, ?_⟩
  intro r h
  rw [hz] at h
  cases h

theorem zipCheck_first_failure_panics_witness :
    (zipCheck sampleConfig (sampleLib [infoPlist, manifestNoEntitlements, manifestTampered])
        (sampleFS "data/ab" sampleContent) "data/ab").2 =
      .panic "interface conversion: interface \x7b\x7d is nil, not map[string]interface \x7b\x7d" :=
  (zipCheck_first_failure_panics sampleConfig
    (sampleLib [infoPlist, manifestNoEntitlements, manifestTampered])
    (sampleFS "data/ab" sampleContent) "data/ab"
    [infoPlist, manifestNoEntitlements, manifestTampered] [infoPlist]
    manifestNoEntitlements [manifestTampered]
    "interface conversion: interface \x7b\x7d is nil, not map[string]interface \x7b\x7d"
    (by rfl) (by rfl) (by decide) (by decide) (by decide)).1

/-! ## Lemmas on uploadAPI -/

theorem TempFile_fresh (env : Env) (fs : FS) (tmp : String)
    (h : TempFile env fs = .ok tmp) : fs tmp = none := by
  unfold TempFile at h
  cases he : env.tmpErr with
  | some e => simp [he] at h
  | none =>
    cases hf : env.tmpNames.find? (fun n => (fs n).isNone) with
    | none => simp [he, hf] at h
    | some n =>
      simp [he, hf] at h
      subst h
      have := List.find?_some hf
      simpa using this

theorem FS.remove_write_write (fs : FS) (tmp : String) (x y : Bytes) (h : fs tmp = none) :
    ((fs.write tmp x).write tmp y).remove tmp = fs := by
  funext q
  by_cases hq : q = tmp
  · simp [FS.remove, hq, h]
  · simp [FS.remove, FS.write, hq]

theorem IsNotExist_Stat (env : Env) (fs : FS) (path : String) :
    IsNotExist (Stat env fs path) = true ↔ env.statErr = none ∧ fs path = none := by
  unfold Stat
  cases hs : env.statErr with
  | some e => simp [IsNotExist]
  | none =>
    cases hp : fs path <;> simp [IsNotExist]

theorem copyLoop_spec (env : Env) (readErr : Option String) (cs : List Bytes) :
    ∀ (k : Nat) (h : Bytes),
      (copyLoop env readErr cs k h h).written <+: (copyLoop env readErr cs k h h).hashed ∧
      ((copyLoop env readErr cs k h h).err = none →
        (copyLoop env readErr cs k h h).written = h ++ cs.flatten ∧
        (copyLoop env readErr cs k h h).hashed = h ++ cs.flatten ∧ readErr = none) := by
  induction cs with
  | nil =>
    intro k h
    simp [copyLoop]
  | cons c cs ih =>
    intro k h
    by_cases hc : c = []
    · subst hc
      simpa [copyLoop] using ih k h
    · have hce : c.isEmpty = false := by
        cases c with
        | nil => exact absurd rfl hc
        | cons x xs => rfl
      cases hw : env.writeFault k with
      | some fault =>
        obtain ⟨nw, e⟩ := fault
        simp only [copyLoop, hce, hw]
        refine ⟨?_, ?_⟩
        · exact (List.prefix_append_right_inj h).2 (List.take_prefix nw c)
        · intro habs
          simp at habs
      | none =>
        have := ih (k + 1) (h ++ c)
        simpa [copyLoop, hce, hw, List.append_assoc] using this

theorem copyTee_spec (env : Env) (body : Body) :
    (copyTee env body).written <+: (copyTee env body).hashed ∧
      ((copyTee env body).err = none →
        (copyTee env body).written = body.chunks.flatten ∧
        (copyTee env body).hashed = body.chunks.flatten ∧ body.err = none) := by
  have := copyLoop_spec env body.err body.chunks 0 []
  simpa [copyTee] using this

theorem uploadAPI_tmp_error (cfg : Config) (lib : Lib) (env : Env) (fs : FS) (body : Body)
    (e : String) (ht : TempFile env fs = .error e) :
    uploadAPI cfg lib env fs body =
      (fs, .ret (some ⟨Errorf "create tmpfile: %s" [e], StatusInternalServerError⟩)) := by
  simp [uploadAPI, ht]

theorem uploadAPI_copy_error (cfg : Config) (lib : Lib) (env : Env) (fs : FS) (body : Body)
    (tmp e : String) (ht : TempFile env fs = .ok tmp) (hc : (copyTee env body).err = some e) :
    uploadAPI cfg lib env fs body =
      (fs, .ret (some ⟨Errorf "copy to tmpfile: %s" [e], StatusInternalServerError⟩)) := by
  simp [uploadAPI, ht, uploadBody, hc,
    FS.remove_write_write fs tmp _ _ (TempFile_fresh env fs tmp ht)]

theorem uploadAPI_duplicate (cfg : Config) (lib : Lib) (env : Env) (fs : FS) (body : Body)
    (tmp : String) (ht : TempFile env fs = .ok tmp) (hc : (copyTee env body).err = none)
    (hs : IsNotExist (Stat env ((fs.write tmp []).write tmp (copyTee env body).written)
      (storePath cfg lib (copyTee env body).hashed)) = false) :
    uploadAPI cfg lib env fs body =
      (fs, .ret (some ⟨Errorf "%s is already exists"
        [storePath cfg lib (copyTee env body).hashed], StatusBadRequest⟩)) := by
  simp [uploadAPI, ht, uploadBody, hc, hs,
    FS.remove_write_write fs tmp _ _ (TempFile_fresh env fs tmp ht)]

theorem uploadAPI_rename_error (cfg : Config) (lib : Lib) (env : Env) (fs : FS)
    (body : Body) (tmp e : String) (ht : TempFile env fs = .ok tmp)
    (hc : (copyTee env body).err = none)
    (hs : IsNotExist (Stat env ((fs.write tmp []).write tmp (copyTee env body).written)
      (storePath cfg lib (copyTee env body).hashed)) = true)
    (hr : env.renameErr = some e) :
    uploadAPI cfg lib env fs body =
      (fs, .ret (some ⟨Errorf "failed to rename tmpfile: %s" [e],
        StatusInternalServerError⟩)) := by
  simp [uploadAPI, ht, uploadBody, hc, hs, Rename, hr,
    FS.remove_write_write fs tmp _ _ (TempFile_fresh env fs tmp ht)]

theorem uploadAPI_stored (cfg : Config) (lib : Lib) (env : Env) (fs : FS) (body : Body)
    (tmp : String) (ht : TempFile env fs = .ok tmp) (hc : (copyTee env body).err = none)
    (hs : IsNotExist (Stat env ((fs.write tmp []).write tmp (copyTee env body).written)
      (storePath cfg lib (copyTee env body).hashed)) = true)
    (hr : env.renameErr = none) :
    uploadAPI cfg lib env fs body =
      (fs.write (storePath cfg lib body.chunks.flatten) body.chunks.flatten,
        afterZipCheck (zipCheck cfg lib
          (fs.write (storePath cfg lib body.chunks.flatten) body.chunks.flatten)
          (storePath cfg lib body.chunks.flatten)).2) := by
  obtain ⟨hw, hh, _⟩ := (copyTee_spec env body).2 hc
  have hfresh := TempFile_fresh env fs tmp ht
  rw [hw, hh] at hs
  have hfree := ((IsNotExist_Stat env _ _).1 hs).2
  have hne : storePath cfg lib body.chunks.flatten ≠ tmp := by
    intro heq
    rw [heq] at hfree
    simp [FS.write] at hfree
  have hfs2 : (((fs.write tmp []).write tmp body.chunks.flatten).remove tmp).write
      (storePath cfg lib body.chunks.flatten) body.chunks.flatten =
      fs.write (storePath cfg lib body.chunks.flatten) body.chunks.flatten := by
    funext q
    by_cases hq : q = storePath cfg lib body.chunks.flatten
    · simp [FS.write, hq]
    · by_cases hq2 : q = tmp
      · subst hq2
        simp [FS.write, FS.remove, hq, hfresh]
      · simp [FS.write, FS.remove, hq, hq2]
  have hrem : (fs.write (storePath cfg lib body.chunks.flatten) body.chunks.flatten).remove
      tmp = fs.write (storePath cfg lib body.chunks.flatten) body.chunks.flatten := by
    funext q
    by_cases hq2 : q = tmp
    · subst hq2
      simp [FS.write, FS.remove, Ne.symm hne, hfresh]
    · simp [FS.remove, hq2]
  have hold : ((fs.write tmp []).write tmp body.chunks.flatten) tmp =
      some body.chunks.flatten := by
    simp [FS.write]
  simp only [uploadAPI, ht, uploadBody, hc, hw, hh, hs, Rename, hr, hold, hfs2, hrem,
    Bool.not_true, Bool.false_eq_true, if_false]

theorem Stat_free (env : Env) (fs : FS) (tmp path : String) (w : Bytes)
    (hst : env.statErr = none) (hfree : fs path = none) (hne : tmp ≠ path) :
    IsNotExist (Stat env ((fs.write tmp []).write tmp w) path) = true := by
  rw [IsNotExist_Stat]
  refine ⟨hst, ?_⟩
  simp [FS.write, Ne.symm hne, hfree]

theorem Stat_taken (env : Env) (fs : FS) (tmp path : String) (w : Bytes)
    (htaken : fs path ≠ none) :
    IsNotExist (Stat env ((fs.write tmp []).write tmp w) path) = false := by
  cases h : IsNotExist (Stat env ((fs.write tmp []).write tmp w) path)
  · rfl
  · have h2 := ((IsNotExist_Stat env _ _).1 h).2
    by_cases hq : path = tmp
    · simp [FS.write, hq] at h2
    · simp [FS.write, hq] at h2
      exact absurd h2 htaken

/-- Every run of `uploadAPI` is one of five: the temporary file cannot be created; the copy
fails; `os.Stat` does not answer "does not exist"; the rename fails; or the body is stored
under its digest and `zipCheck` decides. In the first four the file system is left as it
was. -/
theorem uploadAPI_cases (cfg : Config) (lib : Lib) (env : Env) (fs : FS) (body : Body) :
    (∃ e, TempFile env fs = .error e ∧
        uploadAPI cfg lib env fs body =
          (fs, .ret (some ⟨Errorf "create tmpfile: %s" [e], StatusInternalServerError⟩))) ∨
      (∃ tmp e, TempFile env fs = .ok tmp ∧ (copyTee env body).err = some e ∧
        uploadAPI cfg lib env fs body =
          (fs, .ret (some ⟨Errorf "copy to tmpfile: %s" [e], StatusInternalServerError⟩))) ∨
      (∃ tmp, TempFile env fs = .ok tmp ∧ (copyTee env body).err = none ∧
        IsNotExist (Stat env ((fs.write tmp []).write tmp body.chunks.flatten)
          (storePath cfg lib body.chunks.flatten)) = false ∧
        uploadAPI cfg lib env fs body =
          (fs, .ret (some ⟨Errorf "%s is already exists"
            [storePath cfg lib body.chunks.flatten], StatusBadRequest⟩))) ∨
      (∃ tmp e, TempFile env fs = .ok tmp ∧ (copyTee env body).err = none ∧
        env.renameErr = some e ∧
        uploadAPI cfg lib env fs body =
          (fs, .ret (some ⟨Errorf "failed to rename tmpfile: %s" [e],
            StatusInternalServerError⟩))) ∨
      (∃ tmp, TempFile env fs = .ok tmp ∧ (copyTee env body).err = none ∧
        body.err = none ∧ env.statErr = none ∧ env.renameErr = none ∧
        fs (storePath cfg lib body.chunks.flatten) = none ∧
        uploadAPI cfg lib env fs body =
          (fs.write (storePath cfg lib body.chunks.flatten) body.chunks.flatten,
            afterZipCheck (zipCheck cfg lib
              (fs.write (storePath cfg lib body.chunks.flatten) body.chunks.flatten)
              (storePath cfg lib body.chunks.flatten)).2)) := by
  cases ht : TempFile env fs with
  | error e => exact Or.inl ⟨e, rfl, uploadAPI_tmp_error cfg lib env fs body e ht⟩
  | ok tmp =>
    cases hc : (copyTee env body).err with
    | some e =>
      exact Or.inr (Or.inl ⟨tmp, e, rfl, rfl, uploadAPI_copy_error cfg lib env fs body tmp e ht hc⟩)
    | none =>
      obtain ⟨hw, hh, hb⟩ := (copyTee_spec env body).2 hc
      cases hs : IsNotExist (Stat env ((fs.write tmp []).write tmp (copyTee env body).written)
          (storePath cfg lib (copyTee env body).hashed))
      · have h := uploadAPI_duplicate cfg lib env fs body tmp ht hc hs
        rw [hw, hh] at hs
        rw [hh] at h
        exact Or.inr (Or.inr (Or.inl ⟨tmp, rfl, rfl, hs, h⟩))
      · cases hr : env.renameErr with
        | some e =>
          exact Or.inr (Or.inr (Or.inr (Or.inl ⟨tmp, e, rfl, rfl, rfl,
            uploadAPI_rename_error cfg lib env fs body tmp e ht hc hs hr⟩)))
        | none =>
          have h := uploadAPI_stored cfg lib env fs body tmp ht hc hs hr
          rw [hw, hh] at hs
          obtain ⟨hst, hfree⟩ := (IsNotExist_Stat env _ _).1 hs
          have hfree2 : fs (storePath cfg lib body.chunks.flatten) = none := by
            by_cases hq : storePath cfg lib body.chunks.flatten = tmp
            · rw [hq]
              exact TempFile_fresh env fs tmp ht
            · simpa [FS.write, hq] using hfree
          exact Or.inr (Or.inr (Or.inr (Or.inr ⟨tmp, rfl, rfl, hb, hst, rfl, hfree2, h⟩)))

/-! ## The file name -/

theorem sha1Sum_length (msg : Bytes) : (sha1Sum msg).length = 20 := by
  simp [sha1Sum, wordBytes]

theorem hexString_length (b : Bytes) : (hexString b).length = 2 * b.length := by
  unfold hexString
  rw [String.length]
  induction b with
  | nil => rfl
  | cons x xs ih =>
    simp only [List.flatMap_cons, List.length_append, ih, List.length_cons, List.length_nil]
    omega

theorem hexDigit_lower : ∀ n, n < 16 → isLowerHex (hexDigit n) = true := by
  decide

theorem hexString_lower (b : Bytes) : ∀ c ∈ (hexString b).data, isLowerHex c = true := by
  unfold hexString
  induction b with
  | nil => simp
  | cons x xs ih =>
    intro c hc
    simp only [List.flatMap_cons, List.mem_append, List.mem_cons, List.mem_singleton,
      List.not_mem_nil, or_false] at hc
    rcases hc with (rfl | rfl) | hc
    · exact hexDigit_lower _ (by have := x.isLt; omega)
    · exact hexDigit_lower _ (by omega)
    · exact ih c hc

/-! ## uploadAPI: the claims -/

/-- C6 (what the code does instead). When the body is stored under its digest and
`zipCheck` then rejects it, `uploadAPI` returns the error with status 400, and the file it
renamed into the data directory is still there: the deferred `os.Remove` names the temporary
file, which the rename has already moved away. -/
theorem uploadAPI_rejected_file_remains (cfg : Config) (lib : Lib) (env : Env) (fs : FS)
    (body : Body) (tmp : String) (z : GoError)
    (ht : TempFile env fs = .ok tmp) (hc : (copyTee env body).err = none)
    (hst : env.statErr = none)
    (hfree : fs (storePath cfg lib body.chunks.flatten) = none)
    (hne : tmp ≠ storePath cfg lib body.chunks.flatten)
    (hr : env.renameErr = none)
    (hz : (zipCheck cfg lib
      (fs.write (storePath cfg lib body.chunks.flatten) body.chunks.flatten)
      (storePath cfg lib body.chunks.flatten)).2 = .ret (some z)) :
    (uploadAPI cfg lib env fs body).2 =
        .ret (some ⟨Errorf "error at ipa check: %s" [z.Error], StatusBadRequest⟩) ∧
      (uploadAPI cfg lib env fs body).1 (storePath cfg lib body.chunks.flatten) =
        some body.chunks.flatten ∧
      (uploadAPI cfg lib env fs body).1 ≠ fs := by
  obtain ⟨hw, hh, _⟩ := (copyTee_spec env body).2 hc
  have hs : IsNotExist (Stat env ((fs.write tmp []).write tmp (copyTee env body).written)
      (storePath cfg lib (copyTee env body).hashed)) = true := by
    rw [hw, hh]
    exact Stat_free env fs tmp _ _ hst hfree hne
  rw [uploadAPI_stored cfg lib env fs body tmp ht hc hs hr, hz]
  refine ⟨rfl, by simp [FS.write], ?_⟩
  intro h
  have h2 := congrFun h (storePath cfg lib body.chunks.flatten)
  simp [FS.write, hfree] at h2

theorem uploadAPI_rejected_file_remains_witness :
    (uploadAPI sampleConfig (sampleLib []) sampleEnv emptyFS ⟨[], none⟩).2 =
        .ret (some ⟨Errorf "error at ipa check: %s" ["open zip: zip: not a valid zip file"],
          400⟩) ∧
      (uploadAPI sampleConfig (sampleLib []) sampleEnv emptyFS ⟨[], none⟩).1
        "data/da39a3ee5e6b4b0d3255bfef95601890afd80709" = some [] ∧
      emptyFS "data/da39a3ee5e6b4b0d3255bfef95601890afd80709" = none := by
  have hp : storePath sampleConfig (sampleLib []) [] =
      "data/da39a3ee5e6b4b0d3255bfef95601890afd80709" := by
    decide!
  have h := uploadAPI_rejected_file_remains sampleConfig (sampleLib []) sampleEnv emptyFS
    ⟨[], none⟩ "/tmp/uploading.1" (Errorf "open zip: %s" ["zip: not a valid zip file"])
    (by rfl) (by rfl) (by rfl) (by rfl)
    (by
      show "/tmp/uploading.1" ≠ storePath sampleConfig (sampleLib []) []
      rw [hp]
      decide)
    (by rfl)
    (by
      show (zipCheck sampleConfig (sampleLib [])
        (emptyFS.write (storePath sampleConfig (sampleLib []) []) [])
        (storePath sampleConfig (sampleLib []) [])).2 = _
      rw [hp]
      decide)
  have h1 : (Errorf "open zip: %s" ["zip: not a valid zip file"]).Error =
      "open zip: zip: not a valid zip file" := by
    decide
  have h2 : (⟨[], none⟩ : Body).chunks.flatten = [] := rfl
  rw [h1, h2, hp] at h
  exact ⟨h.1, h.2.1, rfl⟩

/-- C7. With no storage failure (the temporary file is created and the copy of the body
succeeds): if an object is already stored under the digest of the body `S`, `uploadAPI`
returns the error `already exists` with status 400 and leaves the file system as it was, so
the object is neither overwritten nor altered and the temporary file is gone. Hence two
uploads of `S` in a row without storage failure leave an object under the digest of `S`
(with content `S` when the name was free before), change no other path, and the second
upload ends with the error `already exists` and changes nothing. -/
theorem uploadAPI_duplicate_rejected (cfg : Config) (lib : Lib) (S : Bytes) :
    (∀ (env : Env) (fs : FS) (body : Body) (tmp : String),
        body.chunks.flatten = S →
        TempFile env fs = .ok tmp → (copyTee env body).err = none →
        fs (storePath cfg lib S) ≠ none →
        uploadAPI cfg lib env fs body =
          (fs, .ret (some ⟨Errorf "%s is already exists" [storePath cfg lib S],
            StatusBadRequest⟩))) ∧
      (∀ (env1 env2 : Env) (fs : FS) (body1 body2 : Body) (tmp1 tmp2 : String),
        body1.chunks.flatten = S → body2.chunks.flatten = S →
        TempFile env1 fs = .ok tmp1 → (copyTee env1 body1).err = none →
        env1.statErr = none → env1.renameErr = none → tmp1 ≠ storePath cfg lib S →
        TempFile env2 (uploadAPI cfg lib env1 fs body1).1 = .ok tmp2 →
        (copyTee env2 body2).err = none →
        (uploadAPI cfg lib env2 (uploadAPI cfg lib env1 fs body1).1 body2).2 =
            .ret (some ⟨Errorf "%s is already exists" [storePath cfg lib S],
              StatusBadRequest⟩) ∧
          (uploadAPI cfg lib env2 (uploadAPI cfg lib env1 fs body1).1 body2).1 =
            (uploadAPI cfg lib env1 fs body1).1 ∧
          (∃ content, (uploadAPI cfg lib env1 fs body1).1 (storePath cfg lib S) =
              some content ∧ (fs (storePath cfg lib S) = none → content = S)) ∧
          ∀ q, q ≠ storePath cfg lib S →
            (uploadAPI cfg lib env2 (uploadAPI cfg lib env1 fs body1).1 body2).1 q =
              fs q) := by
  have partA : ∀ (env : Env) (fs : FS) (body : Body) (tmp : String),
      body.chunks.flatten = S →
      TempFile env fs = .ok tmp → (copyTee env body).err = none →
      fs (storePath cfg lib S) ≠ none →
      uploadAPI cfg lib env fs body =
        (fs, .ret (some ⟨Errorf "%s is already exists" [storePath cfg lib S],
          StatusBadRequest⟩)) := by
    intro env fs body tmp hS ht hc htaken
    obtain ⟨hw, hh, _⟩ := (copyTee_spec env body).2 hc
    have hs : IsNotExist (Stat env ((fs.write tmp []).write tmp (copyTee env body).written)
        (storePath cfg lib (copyTee env body).hashed)) = false := by
      rw [hh, hS]
      exact Stat_taken env fs tmp _ _ htaken
    rw [uploadAPI_duplicate cfg lib env fs body tmp ht hc hs, hh, hS]
  refine ⟨partA, ?_⟩
  intro env1 env2 fs body1 body2 tmp1 tmp2 hS1 hS2 ht1 hc1 hst1 hr1 hne1 ht2 hc2
  obtain ⟨hw1, hh1, _⟩ := (copyTee_spec env1 body1).2 hc1
  have hfs1 : ∃ content, (uploadAPI cfg lib env1 fs body1).1 (storePath cfg lib S) =
      some content ∧ (fs (storePath cfg lib S) = none → content = S) ∧
      ∀ q, q ≠ storePath cfg lib S → (uploadAPI cfg lib env1 fs body1).1 q = fs q := by
    cases hfree : fs (storePath cfg lib S) with
    | some content =>
      have h := partA env1 fs body1 tmp1 hS1 ht1 hc1 (by simp [hfree])
      rw [h]
      exact ⟨content, hfree, fun habs => by simp at habs, fun q _ => rfl⟩
    | none =>
      have hs : IsNotExist (Stat env1
          ((fs.write tmp1 []).write tmp1 (copyTee env1 body1).written)
          (storePath cfg lib (copyTee env1 body1).hashed)) = true := by
        rw [hh1, hS1]
        exact Stat_free env1 fs tmp1 _ _ hst1 hfree hne1
      rw [uploadAPI_stored cfg lib env1 fs body1 tmp1 ht1 hc1 hs hr1, hS1]
      refine ⟨S, by simp [FS.write], fun _ => rfl, ?_⟩
      intro q hq
      simp [FS.write, hq]
  obtain ⟨content, hstored, hcontent, hother⟩ := hfs1
  have h2 := partA env2 (uploadAPI cfg lib env1 fs body1).1 body2 tmp2 hS2 ht2 hc2
    (by simp [hstored])
  rw [h2]
  exact ⟨rfl, rfl, ⟨content, hstored, hcontent⟩, hother⟩

theorem uploadAPI_duplicate_rejected_witness :
    (uploadAPI sampleConfig (sampleLib [infoPlist, manifestGood]) sampleEnv
        (uploadAPI sampleConfig (sampleLib [infoPlist, manifestGood]) sampleEnv emptyFS
          ⟨[sampleContent], none⟩).1 ⟨[sampleContent.take 10, sampleContent.drop 10], none⟩).2 =
      .ret (some ⟨Errorf "%s is already exists"
        ["data/60ab0dd2ef31cfb96d52fa0a429c3803417db5c2"], 400⟩) := by
  have hp : storePath sampleConfig (sampleLib [infoPlist, manifestGood]) sampleContent =
      "data/60ab0dd2ef31cfb96d52fa0a429c3803417db5c2" := by
    decide!
  have h := ((uploadAPI_duplicate_rejected sampleConfig (sampleLib [infoPlist, manifestGood])
    sampleContent).2 sampleEnv sampleEnv emptyFS ⟨[sampleContent], none⟩
    ⟨[sampleContent.take 10, sampleContent.drop 10], none⟩ "/tmp/uploading.1"
    "/tmp/uploading.1" (by decide) (by decide) (by rfl) (by rfl) (by rfl) (by rfl)
    (by rw [hp]; decide) (by decide!) (by rfl)).1
  rw [hp] at h
  exact h

/-- C9. The copy writes to the file only bytes it has written to the hash, and when it
succeeds the bytes hashed and the bytes written are both the whole body. Any file that is
there after `uploadAPI` and was not there before holds exactly the body and its path is
`filepath.Join(dataDir, name)`, where `name` is the `%x` rendering of the SHA-1 digest of
those bytes; a nil return stores such a file. The digest has 20 bytes, the name has 40
characters, and each of them is one of 0-9, a-f. -/
theorem uploadAPI_name_is_digest (cfg : Config) (lib : Lib) (env : Env) (fs : FS)
    (body : Body) :
    (copyTee env body).written <+: (copyTee env body).hashed ∧
      ((copyTee env body).err = none →
        (copyTee env body).written = body.chunks.flatten ∧
        (copyTee env body).hashed = body.chunks.flatten ∧ body.err = none) ∧
      (∀ q, fs q = none → (uploadAPI cfg lib env fs body).1 q ≠ none →
        q = lib.filepathJoin cfg.dataDir (hexString (sha1Sum body.chunks.flatten)) ∧
          (uploadAPI cfg lib env fs body).1 q = some body.chunks.flatten ∧
          (copyTee env body).err = none) ∧
      ((uploadAPI cfg lib env fs body).2 = .ret none →
        (uploadAPI cfg lib env fs body).1
          (lib.filepathJoin cfg.dataDir (hexString (sha1Sum body.chunks.flatten))) =
            some body.chunks.flatten) ∧
      (sha1Sum body.chunks.flatten).length = 20 ∧
      (hexString (sha1Sum body.chunks.flatten)).length = 40 ∧
      ∀ c ∈ (hexString (sha1Sum body.chunks.flatten)).data, isLowerHex c = true := by
  refine ⟨(copyTee_spec env body).1, (copyTee_spec env body).2, ?_, ?_, sha1Sum_length _,
    by rw [hexString_length, sha1Sum_length], hexString_lower _⟩
  · intro q hq hnew
    rcases uploadAPI_cases cfg lib env fs body with
      ⟨e, _, h⟩ | ⟨tmp, e, _, _, h⟩ | ⟨tmp, _, _, _, h⟩ | ⟨tmp, e, _, _, _, h⟩ |
      ⟨tmp, _, hc, _, _, _, _, h⟩
    · rw [h] at hnew
      exact absurd hq hnew
    · rw [h] at hnew
      exact absurd hq hnew
    · rw [h] at hnew
      exact absurd hq hnew
    · rw [h] at hnew
      exact absurd hq hnew
    · rw [h] at hnew ⊢
      by_cases hqp : q = storePath cfg lib body.chunks.flatten
      · subst hqp
        exact ⟨rfl, by simp [FS.write], hc⟩
      · simp only [FS.write, hqp, if_false] at hnew
        exact absurd hq hnew
  · intro hnil
    rcases uploadAPI_cases cfg lib env fs body with
      ⟨e, _, h⟩ | ⟨tmp, e, _, _, h⟩ | ⟨tmp, _, _, _, h⟩ | ⟨tmp, e, _, _, _, h⟩ |
      ⟨tmp, _, hc, _, _, _, _, h⟩
    · rw [h] at hnil
      simp at hnil
    · rw [h] at hnil
      simp at hnil
    · rw [h] at hnil
      simp at hnil
    · rw [h] at hnil
      simp at hnil
    · rw [h]
      simp [FS.write, storePath]

/-! ## Lemmas on httpAPI -/

theorem afterZipCheck_cases (o : Outcome (Option GoError)) :
    (∃ z, o = .ret (some z) ∧
        afterZipCheck o =
          .ret (some ⟨Errorf "error at ipa check: %s" [z.Error], StatusBadRequest⟩)) ∨
      (o = .ret none ∧ afterZipCheck o = .ret none) ∨
      (∃ msg, o = .panic msg ∧ afterZipCheck o = .panic msg) := by
  cases o with
  | panic msg => exact Or.inr (Or.inr ⟨msg, rfl, rfl⟩)
  | ret r =>
    cases r with
    | none => exact Or.inr (Or.inl ⟨rfl, rfl⟩)
    | some z => exact Or.inl ⟨z, rfl, rfl⟩

/-- The ways `uploadAPI` can end: nil, a panic, or one of five errors, each with its
status. -/
theorem uploadAPI_results (cfg : Config) (lib : Lib) (env : Env) (fs : FS) (body : Body) :
    (uploadAPI cfg lib env fs body).2 = .ret none ∨
      (∃ msg, (uploadAPI cfg lib env fs body).2 = .panic msg) ∨
      (∃ e, (uploadAPI cfg lib env fs body).2 =
        .ret (some ⟨Errorf "create tmpfile: %s" [e], 500⟩)) ∨
      (∃ e, (uploadAPI cfg lib env fs body).2 =
        .ret (some ⟨Errorf "copy to tmpfile: %s" [e], 500⟩)) ∨
      (∃ e, (uploadAPI cfg lib env fs body).2 =
        .ret (some ⟨Errorf "failed to rename tmpfile: %s" [e], 500⟩)) ∨
      (uploadAPI cfg lib env fs body).2 =
        .ret (some ⟨Errorf "%s is already exists" [storePath cfg lib body.chunks.flatten],
          400⟩) ∨
      (∃ z, (zipCheck cfg lib
          (fs.write (storePath cfg lib body.chunks.flatten) body.chunks.flatten)
          (storePath cfg lib body.chunks.flatten)).2 = .ret (some z) ∧
        (uploadAPI cfg lib env fs body).2 =
          .ret (some ⟨Errorf "error at ipa check: %s" [z.Error], 400⟩)) := by
  rcases uploadAPI_cases cfg lib env fs body with
    ⟨e, _, h⟩ | ⟨tmp, e, _, _, h⟩ | ⟨tmp, _, _, _, h⟩ | ⟨tmp, e, _, _, _, h⟩ |
    ⟨tmp, _, hc, _, _, _, _, h⟩
  · exact Or.inr (Or.inr (Or.inl ⟨e, by rw [h]; rfl⟩))
  · exact Or.inr (Or.inr (Or.inr (Or.inl ⟨e, by rw [h]; rfl⟩)))
  · exact Or.inr (Or.inr (Or.inr (Or.inr (Or.inr (Or.inl (by rw [h]; rfl))))))
  · exact Or.inr (Or.inr (Or.inr (Or.inr (Or.inl ⟨e, by rw [h]; rfl⟩))))
  · rcases afterZipCheck_cases (zipCheck cfg lib
        (fs.write (storePath cfg lib body.chunks.flatten) body.chunks.flatten)
        (storePath cfg lib body.chunks.flatten)).2 with ⟨z, hz, ha⟩ | ⟨_, ha⟩ | ⟨msg, _, ha⟩
    · exact Or.inr (Or.inr (Or.inr (Or.inr (Or.inr (Or.inr ⟨z, hz, by rw [h, ha]; rfl⟩)))))
    · exact Or.inl (by rw [h, ha])
    · exact Or.inr (Or.inl ⟨msg, by rw [h, ha]⟩)

theorem httpAPI_upload (cfg : Config) (lib : Lib) (env : Env) (fs : FS) (req : Request)
    (hpath : req.Path = "/upload") (hmethod : req.Method = "PUT") :
    httpAPI cfg lib env fs req =
      ((uploadAPI cfg lib env fs req.Body).1,
        match (uploadAPI cfg lib env fs req.Body).2 with
        | .ret (some apierr) => .ret ⟨apierr.Status, StatusText apierr.Status⟩
        | .ret none => .ret ⟨200, "OK"⟩
        | .panic msg => .panic msg) := by
  unfold httpAPI
  rw [if_pos ⟨hpath, hmethod⟩]
  rcases h : uploadAPI cfg lib env fs req.Body with ⟨fs1, o⟩
  cases o with
  | panic msg => rfl
  | ret r =>
    cases r with
    | none => rfl
    | some e => rfl

/-- How `uploadAPI` ends, for each end of the run told by the stages. -/
theorem uploadAPI_by_end (cfg : Config) (lib : Lib) (env : Env) (fs : FS) (body : Body) :
    (uploadEnd cfg lib env fs body = .accepted → (uploadAPI cfg lib env fs body).2 = .ret none) ∧
      (notFreeOrRejected (uploadEnd cfg lib env fs body) = true →
        ∃ e, (uploadAPI cfg lib env fs body).2 = .ret (some ⟨e, 400⟩)) ∧
      (storageCaused (uploadEnd cfg lib env fs body) = true →
        ∃ e, (uploadAPI cfg lib env fs body).2 = .ret (some ⟨e, 500⟩)) ∧
      (uploadEnd cfg lib env fs body = .panicked →
        ∃ msg, (uploadAPI cfg lib env fs body).2 = .panic msg) := by
  cases ht : TempFile env fs with
  | error m =>
    rw [uploadAPI_tmp_error cfg lib env fs body m ht]
    simp [uploadEnd, ht, notFreeOrRejected, storageCaused, StatusInternalServerError]
  | ok tmp =>
    cases hc : (copyTee env body).err with
    | some m =>
      rw [uploadAPI_copy_error cfg lib env fs body tmp m ht hc]
      simp [uploadEnd, ht, hc, notFreeOrRejected, storageCaused, StatusInternalServerError]
    | none =>
      obtain ⟨hw, hh, _⟩ := (copyTee_spec env body).2 hc
      cases hS : Stat env ((fs.write tmp []).write tmp body.chunks.flatten)
          (storePath cfg lib body.chunks.flatten) with
      | nil =>
        have hs : IsNotExist (Stat env
            ((fs.write tmp []).write tmp (copyTee env body).written)
            (storePath cfg lib (copyTee env body).hashed)) = false := by
          rw [hw, hh, hS]
          rfl
        rw [uploadAPI_duplicate cfg lib env fs body tmp ht hc hs]
        simp [uploadEnd, ht, hc, hS, notFreeOrRejected, storageCaused, StatusBadRequest]
      | other m =>
        have hs : IsNotExist (Stat env
            ((fs.write tmp []).write tmp (copyTee env body).written)
            (storePath cfg lib (copyTee env body).hashed)) = false := by
          rw [hw, hh, hS]
          rfl
        rw [uploadAPI_duplicate cfg lib env fs body tmp ht hc hs]
        simp [uploadEnd, ht, hc, hS, notFreeOrRejected, storageCaused, StatusBadRequest]
      | notExist =>
        have hs : IsNotExist (Stat env
            ((fs.write tmp []).write tmp (copyTee env body).written)
            (storePath cfg lib (copyTee env body).hashed)) = true := by
          rw [hw, hh, hS]
          rfl
        cases hr : env.renameErr with
        | some m =>
          rw [uploadAPI_rename_error cfg lib env fs body tmp m ht hc hs hr]
          simp [uploadEnd, ht, hc, hS, hr, notFreeOrRejected, storageCaused,
            StatusInternalServerError]
        | none =>
          rw [uploadAPI_stored cfg lib env fs body tmp ht hc hs hr]
          rcases afterZipCheck_cases (zipCheck cfg lib
              (fs.write (storePath cfg lib body.chunks.flatten) body.chunks.flatten)
              (storePath cfg lib body.chunks.flatten)).2 with
            ⟨z, hz, ha⟩ | ⟨hz, ha⟩ | ⟨msg, hz, ha⟩
          · simp [uploadEnd, ht, hc, hS, hr, hz, afterZipCheck, notFreeOrRejected,
              storageCaused, StatusBadRequest]
          · simp [uploadEnd, ht, hc, hS, hr, hz, afterZipCheck, notFreeOrRejected,
              storageCaused]
          · simp [uploadEnd, ht, hc, hS, hr, hz, afterZipCheck, notFreeOrRejected,
              storageCaused]

/-! ## httpAPI: the claims -/

/-- C8 (as stated, refuted). `os.Stat` of the target path fails with "permission denied"
while nothing is stored under the digest of the body: the run ends at that failure, which is
neither duplicate content nor a rejection by `zipCheck` (and none of the storage failures
the claim lists), yet the handler answers 400 `Bad Request`; nothing is stored before or
after. -/
theorem httpAPI_stat_failure_answers_400 :
    uploadEnd sampleConfig (sampleLib [infoPlist, manifestGood]) statFailsEnv emptyFS
        ⟨[sampleContent], none⟩ = .statFailed ∧
      clientCaused .statFailed = false ∧ storageCaused .statFailed = false ∧
      (httpAPI sampleConfig (sampleLib [infoPlist, manifestGood]) statFailsEnv emptyFS
        ⟨"PUT", "/upload", ⟨[sampleContent], none⟩⟩).2 = .ret ⟨400, "Bad Request"⟩ ∧
      emptyFS "data/60ab0dd2ef31cfb96d52fa0a429c3803417db5c2" = none ∧
      (httpAPI sampleConfig (sampleLib [infoPlist, manifestGood]) statFailsEnv emptyFS
        ⟨"PUT", "/upload", ⟨[sampleContent], none⟩⟩).1
          "data/60ab0dd2ef31cfb96d52fa0a429c3803417db5c2" = none ∧
      storePath sampleConfig (sampleLib [infoPlist, manifestGood]) sampleContent =
        "data/60ab0dd2ef31cfb96d52fa0a429c3803417db5c2" := by
  refine ⟨?_, rfl, rfl, ?_, rfl, ?_, ?_⟩ <;> decide!

/-- C8 (amended). For a request `PUT /upload`, with the end of the run told by the stages:
the handler answers 200 `OK` exactly when the run is accepted, which is exactly when
`uploadAPI` returns nil; it answers 400 `Bad Request` exactly when `os.Stat` of the target
path does not answer "does not exist" (an object is there, or `os.Stat` itself fails) or
`zipCheck` returns an error on the stored body; it answers 500 `Internal Server Error`
exactly when creating the temporary file, the copy or the rename fails; and whatever it
answers has one of these three statuses and the status text as its body. -/
theorem httpAPI_upload_status (cfg : Config) (lib : Lib) (env : Env) (fs : FS)
    (req : Request) (hpath : req.Path = "/upload") (hmethod : req.Method = "PUT") :
    ((httpAPI cfg lib env fs req).2 = .ret ⟨200, "OK"⟩ ↔
        uploadEnd cfg lib env fs req.Body = .accepted) ∧
      ((httpAPI cfg lib env fs req).2 = .ret ⟨200, "OK"⟩ ↔
        (uploadAPI cfg lib env fs req.Body).2 = .ret none) ∧
      ((httpAPI cfg lib env fs req).2 = .ret ⟨400, "Bad Request"⟩ ↔
        notFreeOrRejected (uploadEnd cfg lib env fs req.Body) = true) ∧
      ((httpAPI cfg lib env fs req).2 = .ret ⟨500, "Internal Server Error"⟩ ↔
        storageCaused (uploadEnd cfg lib env fs req.Body) = true) ∧
      (∀ resp, (httpAPI cfg lib env fs req).2 = .ret resp →
        resp.body = StatusText resp.status ∧
        (resp.status = 200 ∨ resp.status = 400 ∨ resp.status = 500)) := by
  have hh := httpAPI_upload cfg lib env fs req hpath hmethod
  obtain ⟨hacc, hbad, hsto, hpan⟩ := uploadAPI_by_end cfg lib env fs req.Body
  rw [hh]
  cases hE : uploadEnd cfg lib env fs req.Body
  case accepted =>
    rw [hacc hE]
    simp [notFreeOrRejected, storageCaused, StatusText]
  case panicked =>
    obtain ⟨msg, h⟩ := hpan hE
    rw [h]
    simp [notFreeOrRejected, storageCaused]
  case tmpfileFailed =>
    obtain ⟨e, h⟩ := hsto (by rw [hE]; rfl)
    rw [h]
    simp [notFreeOrRejected, storageCaused, StatusText]
  case copyFailed =>
    obtain ⟨e, h⟩ := hsto (by rw [hE]; rfl)
    rw [h]
    simp [notFreeOrRejected, storageCaused, StatusText]
  case renameFailed =>
    obtain ⟨e, h⟩ := hsto (by rw [hE]; rfl)
    rw [h]
    simp [notFreeOrRejected, storageCaused, StatusText]
  case duplicateContent =>
    obtain ⟨e, h⟩ := hbad (by rw [hE]; rfl)
    rw [h]
    simp [notFreeOrRejected, storageCaused, StatusText]
  case statFailed =>
    obtain ⟨e, h⟩ := hbad (by rw [hE]; rfl)
    rw [h]
    simp [notFreeOrRejected, storageCaused, StatusText]
  case rejected =>
    obtain ⟨e, h⟩ := hbad (by rw [hE]; rfl)
    rw [h]
    simp [notFreeOrRejected, storageCaused, StatusText]

theorem httpAPI_upload_status_witness :
    (httpAPI ⟨"XYZ.other", "data", false⟩ (sampleLib [infoPlist, manifestGood]) sampleEnv
        emptyFS ⟨"PUT", "/upload", ⟨[sampleContent], none⟩⟩).2 =
      .ret ⟨400, "Bad Request"⟩ :=
  (httpAPI_upload_status ⟨"XYZ.other", "data", false⟩
    (sampleLib [infoPlist, manifestGood]) sampleEnv emptyFS
    ⟨"PUT", "/upload", ⟨[sampleContent], none⟩⟩ rfl rfl).2.2.1.2 (by decide!)

/-- C10 (as stated, refuted). `POST /` is neither `PUT /upload` nor `GET /`, and the
handler answers it with the greeting and status 200, not with 404. -/
theorem httpAPI_post_root_is_greeted :
    ¬ (("POST" : String) = "PUT" ∧ ("/" : String) = "/upload") ∧
      ¬ (("POST" : String) = "GET" ∧ ("/" : String) = "/") ∧
      httpAPI sampleConfig (sampleLib []) sampleEnv emptyFS ⟨"POST", "/", ⟨[], none⟩⟩ =
        (emptyFS, .ret ⟨200, "Welcome to the home page!"⟩) ∧
      (httpAPI sampleConfig (sampleLib []) sampleEnv emptyFS ⟨"POST", "/", ⟨[], none⟩⟩).2 ≠
        .ret ⟨404, "404 page not found\n"⟩ := by
  refine ⟨by decide, by decide, rfl, ?_⟩
  decide

/-- C10 (amended). A request that is not `PUT /upload` gets 404 (`404 page not found`)
when its path is not `/`, and the greeting with status 200 when its path is `/`, whatever its
method; in both cases the file system is left as it was and the answer depends on nothing
but the path, so `uploadAPI` is not reached. A request `PUT /upload` is answered from the
outcome of `uploadAPI` and leaves the file system `uploadAPI` leaves. -/
theorem httpAPI_routes (cfg : Config) (lib : Lib) (env : Env) (fs : FS) (req : Request) :
    (¬ (req.Path = "/upload" ∧ req.Method = "PUT") → req.Path ≠ "/" →
        httpAPI cfg lib env fs req = (fs, .ret ⟨404, "404 page not found\n"⟩)) ∧
      (¬ (req.Path = "/upload" ∧ req.Method = "PUT") → req.Path = "/" →
        httpAPI cfg lib env fs req = (fs, .ret ⟨200, "Welcome to the home page!"⟩)) ∧
      (¬ (req.Path = "/upload" ∧ req.Method = "PUT") →
        ∀ (cfg1 : Config) (lib1 : Lib) (env1 : Env) (body1 : Body),
          httpAPI cfg1 lib1 env1 fs ⟨req.Method, req.Path, body1⟩ =
            httpAPI cfg lib env fs req) ∧
      (req.Path = "/upload" ∧ req.Method = "PUT" →
        (httpAPI cfg lib env fs req).1 = (uploadAPI cfg lib env fs req.Body).1 ∧
        ((httpAPI cfg lib env fs req).2 = .ret ⟨200, "OK"⟩ ↔
          (uploadAPI cfg lib env fs req.Body).2 = .ret none)) := by
  refine ⟨?_, ?_, ?_, ?_⟩
  · intro hnot hp
    simp [httpAPI, hnot, hp, StatusNotFound]
  · intro hnot hp
    simp [httpAPI, hnot, hp, StatusOK]
  · intro hnot cfg1 lib1 env1 body1
    simp only [httpAPI, hnot, if_false]
  · rintro ⟨hp, hm⟩
    rw [httpAPI_upload cfg lib env fs req hp hm]
    refine ⟨rfl, ?_⟩
    rcases uploadAPI_results cfg lib env fs req.Body with
      h | ⟨msg, h⟩ | ⟨m, h⟩ | ⟨m, h⟩ | ⟨m, h⟩ | h | ⟨z, _, h⟩ <;> rw [h] <;> simp

theorem httpAPI_routes_witness :
    httpAPI sampleConfig (sampleLib []) sampleEnv emptyFS ⟨"DELETE", "/upload", ⟨[], none⟩⟩ =
      (emptyFS, .ret ⟨404, "404 page not found\n"⟩) :=
  (httpAPI_routes sampleConfig (sampleLib []) sampleEnv emptyFS
    ⟨"DELETE", "/upload", ⟨[], none⟩⟩).1 (by decide) (by decide)

/-! ## Further properties -/

/-- The loop of `zipCheck`, for an archive that opens: (1) `zipCheck` returns nil exactly
when every member whose name ends in "embedded.mobileprovision" opens and reads, parses and
verifies as a signed message, decodes, and carries the configured identifier in its
`Entitlements` mapping; (2) when `f` is the first such member that does not pass, `zipCheck`
ends the way the check of `f` ends, be it a returned error or a panic, the call log is that
of the members up to `f`, and whatever follows `f` in the archive changes neither the
outcome nor the log; (3) any list of members with the same members of that suffix, in the
same order, gives the same outcome and log. -/
theorem zipCheck_short_circuit (cfg : Config) (lib : Lib) (fs : FS) (path : String)
    (files : List ZipFile) (hopen : zipOpenReader lib fs path = .ok files) :
    ((zipCheck cfg lib fs path).2 = .ret none ↔
        ∀ f ∈ files, isManifest f = true →
          ∃ (b : Bytes) (msg : PKCS7) (profile ent : GoMap),
            f.Open = .ok (.ok b) ∧ lib.pkcs7Parse b = .ok msg ∧
            lib.pkcs7Verify msg = none ∧ lib.plistUnmarshal msg.Content = .ok profile ∧
            profile.index "Entitlements" = some (.dict ent) ∧
            ent.index "application-identifier" = some (.str cfg.appIdentifier)) ∧
      (∀ (pre : List ZipFile) (f : ZipFile) (post : List ZipFile),
        files = pre ++ f :: post →
        (∀ g ∈ pre, isManifest g = true → (zipCheckMember cfg lib g).2 = .ret none) →
        isManifest f = true → (zipCheckMember cfg lib f).2 ≠ .ret none →
        (zipCheck cfg lib fs path).2 = (zipCheckMember cfg lib f).2 ∧
          (zipCheck cfg lib fs path).1 =
            (zipCheckLoop cfg lib pre).1 ++ (zipCheckMember cfg lib f).1 ∧
          ∀ later : List ZipFile,
            zipCheckLoop cfg lib (pre ++ f :: later) = zipCheck cfg lib fs path) ∧
      (∀ others : List ZipFile, others.filter isManifest = files.filter isManifest →
        zipCheckLoop cfg lib others = zipCheck cfg lib fs path) := by
  rw [zipCheck_opened cfg lib fs path files hopen]
  refine ⟨?_, ?_, ?_⟩
  · rw [zipCheckLoop_nil_iff]
    constructor
    · intro h f hf hm
      exact (zipCheckMember_nil_iff cfg lib f).1 (h f hf hm)
    · intro h f hf hm
      exact (zipCheckMember_nil_iff cfg lib f).2 (h f hf hm)
  · intro pre f post hfiles hpre hf hne
    have hz : ∀ later : List ZipFile, zipCheckLoop cfg lib (pre ++ f :: later) =
        ((zipCheckLoop cfg lib pre).1 ++ (zipCheckMember cfg lib f).1,
          (zipCheckMember cfg lib f).2) := by
      intro later
      rw [zipCheckLoop_append cfg lib pre _ hpre, zipCheckLoop_stop cfg lib f later hf hne]
    rw [hfiles, hz post]
    exact ⟨rfl, rfl, hz⟩
  · intro others h
    rw [zipCheckLoop_filter cfg lib others, h, ← zipCheckLoop_filter cfg lib files]

theorem zipCheck_short_circuit_witness :
    zipCheck sampleConfig
        (sampleLib [manifestGood, infoPlist, manifestNoAppID, manifestTampered])
        (sampleFS "data/ab" sampleContent) "data/ab" =
      ([.fileOpen "Payload/My.app/embedded.mobileprovision",
          .readAll "Payload/My.app/embedded.mobileprovision",
          .pkcs7Parse [1, 0], .pkcs7Verify ⟨[0], [], [[1]]⟩, .plistUnmarshal [0],
          .fileOpen "Payload/My.app/PlugIns/Ext.appex/embedded.mobileprovision",
          .readAll "Payload/My.app/PlugIns/Ext.appex/embedded.mobileprovision",
          .pkcs7Parse [1, 2], .pkcs7Verify ⟨[2], [], [[1]]⟩, .plistUnmarshal [2]],
        .ret (some (Errorf "invalid appid: `%s` but `%s` is expected"
          ["%!s(<nil>)", "ABC.myapp"]))) := by
  have h := ((zipCheck_short_circuit sampleConfig
    (sampleLib [manifestGood, infoPlist, manifestNoAppID, manifestTampered])
    (sampleFS "data/ab" sampleContent) "data/ab"
    [manifestGood, infoPlist, manifestNoAppID, manifestTampered] (by rfl)).2.1
    [manifestGood, infoPlist] manifestNoAppID [manifestTampered] (by rfl) (by decide)
    (by decide) (by decide)).2.2 []
  rw [← h]
  decide

/-- The part of the frame property that holds: an error other than the wrapped error of
`zipCheck` leaves the file system as it was (the temporary file included), and a nil return
leaves exactly one new file, under the digest of the body, holding the body. -/
theorem uploadAPI_frame (cfg : Config) (lib : Lib) (env : Env) (fs : FS) (body : Body) :
    (∀ e, (uploadAPI cfg lib env fs body).2 = .ret (some e) →
        e.Error.format ≠ "error at ipa check: %s" → (uploadAPI cfg lib env fs body).1 = fs) ∧
      ((uploadAPI cfg lib env fs body).2 = .ret none →
        fs (storePath cfg lib body.chunks.flatten) = none ∧
        (uploadAPI cfg lib env fs body).1 (storePath cfg lib body.chunks.flatten) =
          some body.chunks.flatten ∧
        ∀ q, q ≠ storePath cfg lib body.chunks.flatten →
          (uploadAPI cfg lib env fs body).1 q = fs q) := by
  rcases uploadAPI_cases cfg lib env fs body with
    ⟨e, _, h⟩ | ⟨tmp, e, _, _, h⟩ | ⟨tmp, _, _, _, h⟩ | ⟨tmp, e, _, _, _, h⟩ |
    ⟨tmp, _, hc, _, _, _, hfree, h⟩
  · rw [h]
    exact ⟨fun _ _ _ => rfl, fun habs => by simp at habs⟩
  · rw [h]
    exact ⟨fun _ _ _ => rfl, fun habs => by simp at habs⟩
  · rw [h]
    exact ⟨fun _ _ _ => rfl, fun habs => by simp at habs⟩
  · rw [h]
    exact ⟨fun _ _ _ => rfl, fun habs => by simp at habs⟩
  · rw [h]
    refine ⟨?_, ?_⟩
    · intro e he hfmt
      rcases afterZipCheck_cases (zipCheck cfg lib
          (fs.write (storePath cfg lib body.chunks.flatten) body.chunks.flatten)
          (storePath cfg lib body.chunks.flatten)).2 with ⟨z, _, ha⟩ | ⟨_, ha⟩ | ⟨msg, _, ha⟩
      · simp only [ha, Outcome.ret.injEq, Option.some.injEq] at he
        subst he
        exact absurd rfl hfmt
      · simp [ha] at he
      · simp [ha] at he
    · intro _
      refine ⟨hfree, by simp [FS.write], ?_⟩
      intro q hq
      simp [FS.write, hq]

/-- An upload that cannot be opened as an archive is rejected at that stage with the error
`open zip`: no member is opened and nothing is verified or decoded. -/
theorem zipCheck_corrupt_archive (cfg : Config) (lib : Lib) (fs : FS) (path e : String)
    (hopen : zipOpenReader lib fs path = .error e) :
    zipCheck cfg lib fs path = ([], .ret (some (Errorf "open zip: %s" [e]))) := by
  simp [zipCheck, hopen]

theorem zipCheck_corrupt_archive_witness :
    zipCheck sampleConfig (sampleLib [manifestGood]) (sampleFS "data/ab" [80, 75, 3, 4])
        "data/ab" =
      ([], .ret (some (Errorf "open zip: %s" ["zip: not a valid zip file"]))) :=
  zipCheck_corrupt_archive sampleConfig (sampleLib [manifestGood])
    (sampleFS "data/ab" [80, 75, 3, 4]) "data/ab" "zip: not a valid zip file" (by rfl)

/-- When the body is stored and `zipCheck` panics, `uploadAPI` and the handler panic too:
no answer is written, and the stored file stays in the data directory. -/
theorem httpAPI_panics_with_zipCheck (cfg : Config) (lib : Lib) (env : Env) (fs : FS)
    (req : Request) (tmp msg : String)
    (hpath : req.Path = "/upload") (hmethod : req.Method = "PUT")
    (ht : TempFile env fs = .ok tmp) (hc : (copyTee env req.Body).err = none)
    (hst : env.statErr = none)
    (hfree : fs (storePath cfg lib req.Body.chunks.flatten) = none)
    (hne : tmp ≠ storePath cfg lib req.Body.chunks.flatten)
    (hr : env.renameErr = none)
    (hz : (zipCheck cfg lib
      (fs.write (storePath cfg lib req.Body.chunks.flatten) req.Body.chunks.flatten)
      (storePath cfg lib req.Body.chunks.flatten)).2 = .panic msg) :
    httpAPI cfg lib env fs req =
      (fs.write (storePath cfg lib req.Body.chunks.flatten) req.Body.chunks.flatten,
        .panic msg) := by
  obtain ⟨hw, hh, _⟩ := (copyTee_spec env req.Body).2 hc
  have hs : IsNotExist (Stat env
      ((fs.write tmp []).write tmp (copyTee env req.Body).written)
      (storePath cfg lib (copyTee env req.Body).hashed)) = true := by
    rw [hw, hh]
    exact Stat_free env fs tmp _ _ hst hfree hne
  rw [httpAPI_upload cfg lib env fs req hpath hmethod,
    uploadAPI_stored cfg lib env fs req.Body tmp ht hc hs hr, hz]
  rfl

theorem httpAPI_panics_with_zipCheck_witness :
    (httpAPI sampleConfig (sampleLib [infoPlist, manifestNoEntitlements]) sampleEnv emptyFS
        ⟨"PUT", "/upload", ⟨[sampleContent], none⟩⟩).2 =
      .panic "interface conversion: interface \x7b\x7d is nil, not map[string]interface \x7b\x7d" := by
  have hp : storePath sampleConfig (sampleLib [infoPlist, manifestNoEntitlements])
      sampleContent = "data/60ab0dd2ef31cfb96d52fa0a429c3803417db5c2" := by
    decide!
  have h := httpAPI_panics_with_zipCheck sampleConfig
    (sampleLib [infoPlist, manifestNoEntitlements]) sampleEnv emptyFS
    ⟨"PUT", "/upload", ⟨[sampleContent], none⟩⟩ "/tmp/uploading.1"
    "interface conversion: interface \x7b\x7d is nil, not map[string]interface \x7b\x7d"
    rfl rfl (by rfl) (by rfl) (by rfl) (by rfl)
    (by
      show "/tmp/uploading.1" ≠
        storePath sampleConfig (sampleLib [infoPlist, manifestNoEntitlements])
          ((⟨[sampleContent], none⟩ : Body).chunks.flatten)
      have h2 : (⟨[sampleContent], none⟩ : Body).chunks.flatten = sampleContent := by
        decide
      rw [h2, hp]
      decide)
    (by rfl) (by decide!)
  rw [h]

/-- The scenario of an archive signed for `ABC.myapp`: accepted with 200 when that
identifier is configured, rejected with 400 when another one is, and rejected with 400 as a
duplicate when the same bytes are uploaded again. -/
theorem httpAPI_scenario :
    (httpAPI ⟨"ABC.myapp", "data", false⟩ (sampleLib [infoPlist, manifestGood]) sampleEnv
        emptyFS ⟨"PUT", "/upload", ⟨[sampleContent], none⟩⟩).2 = .ret ⟨200, "OK"⟩ ∧
      (httpAPI ⟨"XYZ.other", "data", false⟩ (sampleLib [infoPlist, manifestGood]) sampleEnv
        emptyFS ⟨"PUT", "/upload", ⟨[sampleContent], none⟩⟩).2 =
          .ret ⟨400, "Bad Request"⟩ ∧
      (httpAPI ⟨"ABC.myapp", "data", false⟩ (sampleLib [infoPlist, manifestGood]) sampleEnv
        (httpAPI ⟨"ABC.myapp", "data", false⟩ (sampleLib [infoPlist, manifestGood])
          sampleEnv emptyFS ⟨"PUT", "/upload", ⟨[sampleContent], none⟩⟩).1
        ⟨"PUT", "/upload", ⟨[sampleContent], none⟩⟩).2 = .ret ⟨400, "Bad Request"⟩ := by
  refine ⟨?_, ?_, ?_⟩ <;> decide!

/-! ## Test vectors -/

theorem sha1Sum_empty :
    hexString (sha1Sum []) = "da39a3ee5e6b4b0d3255bfef95601890afd80709" := by
  decide!

theorem sha1Sum_abc :
    hexString (sha1Sum [97, 98, 99]) = "a9993e364706816aba3e25717850c26c9cd0d89d" := by
  decide!

end IpaDistributer
